import Mathlib

/-!
Shallow embedding of the balance-consistency core of the money-manager
backend (accounts, transactions, lifecycle operations, reporting).

The effective JavaScript code is the later set of `exports.*` assignments in
`src/src/controllers/accountController.js` (in CommonJS a later assignment to
the same export key overrides the earlier one), together with the transaction
schema (`transactionSchema`), the account schema (`accountSchema`), and the
report controller (`getDashboardSummary`, `getCategoryBreakdown`).

Conventions of the embedding:
* MongoDB ObjectIds are `Nat`.
* JavaScript numbers (amounts, balances) are `Int`; dates/timestamps are
  `Int` milliseconds.
* `findOne {_id, userId}` / `find?` returns the first matching record;
  `findByIdAndUpdate(id, {$inc: ...})` increments every record whose id
  matches (Mongo guarantees at most one; no uniqueness is needed for the
  balance proofs), and plain `findByIdAndUpdate(id, body)` /
  `deleteOne` touch the first record whose id matches.
* A request body field that may be absent is an `Option`; for the update
  payload, `toAccountId`/`transferType` use `Option (Option _)`:
  `none` = key absent, `some none` = cleared (the empty string / `null`
  cases of the code), `some (some x)` = a value.
-/

inductive TxnType where
  | income
  | expense
  | transfer
deriving DecidableEq, Repr

inductive TransferTy where
  | transfer_out
  | transfer_in
deriving DecidableEq, Repr

/-- An account record, after `accountSchema` in `src/src/models/Account.js`
(`id`, `userId`, `name`, `type`, `currency`, `balance`, `openingBalance`). -/
structure Account where
  id : Nat
  userId : Nat
  name : String
  accType : String
  currency : String
  balance : Int
  openingBalance : Int
deriving DecidableEq, Repr

/-- A transaction record, after `transactionSchema` in the transaction model
file.  `isEditable` is deliberately NOT a field: in the source it is a
mongoose virtual, computed from `createdAt` at use time (see `isEditable`
below). -/
structure Txn where
  id : Nat
  userId : Nat
  accountId : Nat
  type : TxnType
  amount : Int
  category : String
  division : String
  description : String
  date : Int
  toAccountId : Option Nat
  transferType : Option TransferTy
  createdAt : Int
deriving DecidableEq, Repr

/-- The persistent store: the accounts collection and the transactions
collection. -/
structure St where
  accounts : List Account
  txns : List Txn
deriving DecidableEq, Repr

inductive Err where
  | notFound
  | forbidden
deriving DecidableEq, Repr

/-- A controller response: the success payload or the typed error
(`404 Account/Transaction not found` or `403` edit-window). -/
inductive Resp where
  | okTxn (t : Txn)
  | okAccount (a : Account)
  | okUnit
  | err (e : Err)
deriving DecidableEq, Repr

/-- `Account.findOne({ _id: accId, userId: uid })`. -/
def findAccountOwned (s : St) (accId uid : Nat) : Option Account :=
  s.accounts.find? (fun a => a.id == accId && a.userId == uid)

/-- `Transaction.findOne({ _id: tid, userId: uid })`. -/
def findTxnOwned (s : St) (tid uid : Nat) : Option Txn :=
  s.txns.find? (fun t => t.id == tid && t.userId == uid)

/-- The per-account effect of `Account.findByIdAndUpdate(accId, { $inc: { balance: d } })`. -/
def bump (accId : Nat) (d : Int) (a : Account) : Account :=
  if accId = a.id then { a with balance := a.balance + d } else a

/-- `Account.findByIdAndUpdate(accId, { $inc: { balance: d } })`: an atomic
relative increment of the stored balance; a no-op when no account has this
id, and NOT scoped to any user. -/
def incBalance (accId : Nat) (d : Int) (s : St) : St :=
  St.mk (s.accounts.map (bump accId d)) s.txns

/-- The balance of the (first) account with the given id, if any. -/
def balanceOf (s : St) (accId : Nat) : Option Int :=
  (s.accounts.find? (fun a => a.id == accId)).map (·.balance)

/-- The opening balance of the (first) account with the given id, if any. -/
def openingOf (s : St) (accId : Nat) : Option Int :=
  (s.accounts.find? (fun a => a.id == accId)).map (·.openingBalance)

/-- The mongoose virtual `transactionSchema.virtual('isEditable')`:
`createdAt > new Date(Date.now() - 12*60*60*1000)`. -/
def isEditable (t : Txn) (now : Int) : Bool :=
  now - 12 * 60 * 60 * 1000 < t.createdAt

/-- The request body of `POST /api/transactions`. -/
structure CreateReq where
  accountId : Nat
  type : TxnType
  amount : Int
  category : String
  division : String
  description : String
  date : Option Int
  toAccountId : Option Nat
deriving DecidableEq, Repr

/-- The record persisted by the effective `createTransaction`
(`accountController.js` lines 456-467): category forced to `"Transfer"` for
transfers, `toAccountId`/`transferType` only kept for transfers. -/
def newTxnOf (uid newId : Nat) (now : Int) (r : CreateReq) : Txn :=
  { id := newId
    userId := uid
    accountId := r.accountId
    type := r.type
    amount := r.amount
    category := if r.type = TxnType.transfer then "Transfer" else r.category
    division := r.division
    description := r.description
    date := r.date.getD now
    toAccountId := if r.type = TxnType.transfer then r.toAccountId else none
    transferType := if r.type = TxnType.transfer then some TransferTy.transfer_out else none
    createdAt := now }

/-- The "apply new transaction impact" balance block shared by the effective
`createTransaction` (lines 469-479) and step 4 of `updateTransaction`
(lines 634-644): income adds, expense subtracts, and a transfer moves the
amount from `accountId` to `toAccountId` ONLY when `toAccountId` is set. -/
def applyNewEffect (t : Txn) (s : St) : St :=
  match t.type with
  | TxnType.income => incBalance t.accountId t.amount s
  | TxnType.expense => incBalance t.accountId (-t.amount) s
  | TxnType.transfer =>
      match t.toAccountId with
      | some d => incBalance d t.amount (incBalance t.accountId (-t.amount) s)
      | none => s

/-- The "reverse old transaction impact" balance block shared by step 1 of
`updateTransaction` (lines 593-605) and `deleteTransaction` (lines 680-692):
note that for a transfer the SOURCE side is reverted unconditionally, and
only the destination side is guarded by `toAccountId`. -/
def reverseEffect (t : Txn) (s : St) : St :=
  match t.type with
  | TxnType.income => incBalance t.accountId (-t.amount) s
  | TxnType.expense => incBalance t.accountId t.amount s
  | TxnType.transfer =>
      match t.toAccountId with
      | some d => incBalance d (-t.amount) (incBalance t.accountId t.amount s)
      | none => incBalance t.accountId t.amount s

/-- The effective `createTransaction` (`accountController.js` lines 442-488):
verify ownership of the source account, persist ONE transaction record, then
adjust balances with `$inc`.  No mirrored `transfer_in` record is created and
the destination `$inc` is by id only (not scoped to the user). -/
def createTransaction (uid : Nat) (r : CreateReq) (newId : Nat) (now : Int) (s : St) :
    Resp × St :=
  match findAccountOwned s r.accountId uid with
  | none => (Resp.err Err.notFound, s)
  | some _ =>
      let t := newTxnOf uid newId now r
      let s1 : St := St.mk s.accounts (s.txns ++ [t])
      (Resp.okTxn t, applyNewEffect t s1)

/-- The `PUT /api/transactions/:id` body: each key optional; `toAccountId`
and `transferType` additionally distinguish "cleared" (`some none`). -/
structure UpdateBody where
  type : Option TxnType
  amount : Option Int
  category : Option String
  division : Option String
  description : Option String
  date : Option Int
  accountId : Option Nat
  toAccountId : Option (Option Nat)
  transferType : Option (Option TransferTy)
deriving DecidableEq, Repr

/-- Step 2 "CLEAN UP PAYLOAD" of the effective `updateTransaction`
(lines 607-625): a payload whose `type` is not the literal `'transfer'`
(including an absent `type`) gets `toAccountId`/`transferType` cleared;
a transfer payload with an empty `toAccountId` is likewise cleared, otherwise
`transferType` is forced to `transfer_out`; a blank category on a transfer
payload defaults to `"Transfer"`. -/
def cleanBody (u : UpdateBody) : UpdateBody :=
  if u.type ≠ some TxnType.transfer then
    { u with toAccountId := some none, transferType := some none }
  else
    let u1 :=
      if u.toAccountId = some none then
        { u with toAccountId := some none, transferType := some none }
      else
        { u with transferType := some (some TransferTy.transfer_out) }
    if u1.category = none ∨ u1.category = some "" then
      { u1 with category := some "Transfer" }
    else u1

/-- `Transaction.findByIdAndUpdate(id, updateData)`: every key present in the
payload overwrites the stored field, absent keys keep the stored value.
`id`, `userId` and `createdAt` are never in the payload. -/
def mergeTxn (t : Txn) (u : UpdateBody) : Txn :=
  { t with
    type := u.type.getD t.type
    amount := u.amount.getD t.amount
    category := u.category.getD t.category
    division := u.division.getD t.division
    description := u.description.getD t.description
    date := u.date.getD t.date
    accountId := u.accountId.getD t.accountId
    toAccountId := u.toAccountId.getD t.toAccountId
    transferType := u.transferType.getD t.transferType }

/-- Replace the first transaction whose id matches
(`Transaction.findByIdAndUpdate`). -/
def replaceTxn : List Txn → Nat → Txn → List Txn
  | [], _, _ => []
  | t :: ts, tid, t' => if t.id = tid then t' :: ts else t :: replaceTxn ts tid t'

/-- Remove the first transaction whose id matches (`transaction.deleteOne()`). -/
def removeTxn : List Txn → Nat → List Txn
  | [], _ => []
  | t :: ts, tid => if t.id = tid then ts else t :: removeTxn ts tid

/-- The effective `updateTransaction` (`accountController.js` lines 571-653):
NotFound unless owned, Forbidden outside the 12-hour window, then
reverse-old-impact, clean payload, persist merge, apply-new-impact. -/
def updateTransaction (uid tid : Nat) (now : Int) (b : UpdateBody) (s : St) :
    Resp × St :=
  match findTxnOwned s tid uid with
  | none => (Resp.err Err.notFound, s)
  | some t =>
      if isEditable t now then
        let s1 := reverseEffect t s
        let t' := mergeTxn t (cleanBody b)
        let s2 : St := St.mk s1.accounts (replaceTxn s1.txns tid t')
        (Resp.okTxn t', applyNewEffect t' s2)
      else (Resp.err Err.forbidden, s)

/-- The effective `deleteTransaction` (`accountController.js` lines 658-703):
NotFound unless owned, Forbidden outside the 12-hour window, then revert the
balance impact and remove the record. -/
def deleteTransaction (uid tid : Nat) (now : Int) (s : St) : Resp × St :=
  match findTxnOwned s tid uid with
  | none => (Resp.err Err.notFound, s)
  | some t =>
      if isEditable t now then
        let s1 := reverseEffect t s
        (Resp.okUnit, St.mk s1.accounts (removeTxn s1.txns tid))
      else (Resp.err Err.forbidden, s)

/-- The `PUT /api/accounts/:id` body (`req.body` is passed wholesale to
`findByIdAndUpdate`, so every schema field is assignable). -/
structure AccountUpdateBody where
  name : Option String
  accType : Option String
  currency : Option String
  balance : Option Int
  openingBalance : Option Int
deriving DecidableEq, Repr

/-- `Account.findByIdAndUpdate(id, req.body)`: present keys overwrite. -/
def mergeAccount (a : Account) (b : AccountUpdateBody) : Account :=
  { a with
    name := b.name.getD a.name
    accType := b.accType.getD a.accType
    currency := b.currency.getD a.currency
    balance := b.balance.getD a.balance
    openingBalance := b.openingBalance.getD a.openingBalance }

/-- Update the first account whose id matches. -/
def updateFirstAccount : List Account → Nat → (Account → Account) → List Account
  | [], _, _ => []
  | a :: as, i, f => if a.id = i then f a :: as else a :: updateFirstAccount as i f

/-- `updateAccount` (`accountController.js` lines 68-94): ownership check,
then `findByIdAndUpdate(id, req.body)`. -/
def updateAccount (uid accId : Nat) (b : AccountUpdateBody) (s : St) : Resp × St :=
  match findAccountOwned s accId uid with
  | none => (Resp.err Err.notFound, s)
  | some a =>
      (Resp.okAccount (mergeAccount a b),
       St.mk (updateFirstAccount s.accounts accId (fun x => mergeAccount x b)) s.txns)

/-- The monetary effect of one persisted transaction on the account with id
`i`, as the code applies and reverses it: `accountId` is the outflow side of
a transfer and `toAccountId` the inflow side (the spec's
`Σincome + Σtransfer_in - Σexpense - Σtransfer_out` attribution). -/
def txnEffect (t : Txn) (i : Nat) : Int :=
  match t.type with
  | TxnType.income => if t.accountId = i then t.amount else 0
  | TxnType.expense => if t.accountId = i then -t.amount else 0
  | TxnType.transfer =>
      (if t.accountId = i then -t.amount else 0) +
      (match t.toAccountId with
       | some d => if d = i then t.amount else 0
       | none => 0)

/-- The balance change the apply-side blocks actually perform: identical to
`txnEffect` except that a transfer with no `toAccountId` performs NO balance
change at all (the `type === 'transfer' && toAccountId` guard). -/
def appliedTxnEffect (t : Txn) (i : Nat) : Int :=
  match t.type with
  | TxnType.income => if t.accountId = i then t.amount else 0
  | TxnType.expense => if t.accountId = i then -t.amount else 0
  | TxnType.transfer =>
      match t.toAccountId with
      | some d => (if t.accountId = i then -t.amount else 0) + (if d = i then t.amount else 0)
      | none => 0

/-- Sum of the effects of a list of transactions on account id `i`. -/
def effectSum (txns : List Txn) (i : Nat) : Int :=
  (txns.map (fun t => txnEffect t i)).sum

/-- The spec's account invariant:
`balance == openingBalance + Σ(effect of every transaction touching this account)`. -/
def balanceInvariant (s : St) : Prop :=
  ∀ a ∈ s.accounts, a.balance = a.openingBalance + effectSum s.txns a.id

/-- Store wellformedness: Mongo `_id`s of the transaction collection are
unique. -/
def WFTxnIds (s : St) : Prop :=
  (s.txns.map (·.id)).Nodup

/-- A transaction-lifecycle request, as dispatched by the routes. -/
inductive Op where
  | createTx (uid newId : Nat) (now : Int) (r : CreateReq)
  | updateTx (uid tid : Nat) (now : Int) (b : UpdateBody)
  | deleteTx (uid tid : Nat) (now : Int)
deriving DecidableEq, Repr

/-- Run one lifecycle request against the store (the response is dropped;
a failed request leaves the store as the code left it). -/
def applyOp (s : St) (op : Op) : St :=
  match op with
  | Op.createTx uid newId now r => (createTransaction uid r newId now s).2
  | Op.updateTx uid tid now b => (updateTransaction uid tid now b s).2
  | Op.deleteTx uid tid now => (deleteTransaction uid tid now s).2

def applyOps (s : St) (ops : List Op) : St :=
  ops.foldl applyOp s

/-- Side conditions under which a lifecycle request keeps the balance
invariant: a created transfer carries a destination, a fresh Mongo id is
fresh, and an update does not leave behind a transfer without a
destination. -/
def goodOp (s : St) (op : Op) : Bool :=
  match op with
  | Op.createTx _ newId _ r =>
      decide ((r.type = TxnType.transfer → r.toAccountId ≠ none) ∧
        newId ∉ s.txns.map (·.id))
  | Op.updateTx uid tid _ b =>
      match findTxnOwned s tid uid with
      | some t =>
          let t' := mergeTxn t (cleanBody b)
          decide (¬(t'.type = TxnType.transfer ∧ t'.toAccountId = none))
      | none => true
  | Op.deleteTx _ _ _ => true

/-- `goodOp` holding along a whole request sequence. -/
def okOps : St → List Op → Bool
  | _, [] => true
  | s, op :: ops => goodOp s op && okOps (applyOp s op) ops

/-- Modelled from the spec: the `recalibrateAccount` controller is absent
from `src/` — only its route declaration exists
(`src/src/routes/accountRoutes.js` line 22:
`router.post('/:id/recalibrate', recalibrateAccount)`).  Per spec §4.3 it
recomputes `balance = openingBalance + Σincome_effects + Σtransfer_in_effects
- Σexpense_effects - Σtransfer_out_effects` over every persisted transaction
whose `accountId` or transfer destination is this account, and overwrites the
stored balance; errors: AccountNotFound. -/
def recalibrateAccount (uid accId : Nat) (s : St) : Resp × St :=
  match findAccountOwned s accId uid with
  | none => (Resp.err Err.notFound, s)
  | some a =>
      let newBal := a.openingBalance + effectSum s.txns accId
      (Resp.okAccount { a with balance := newBal },
       St.mk (updateFirstAccount s.accounts accId (fun x => { x with balance := newBal }))
         s.txns)

/-- The aggregate returned by `getDashboardSummary` (report controller lines
50-82): totals and counts per type, with `balance = income - expense`; the
`transfer` group produced by the `$group` stage is never read. -/
structure DashboardSummary where
  income : Int
  expense : Int
  balance : Int
  incomeTxCount : Nat
  expenseTxCount : Nat
deriving DecidableEq, Repr

/-- `getDashboardSummary`: match the user's transactions inside the period
filter, group by type, and read off the income and expense groups
(`?.total || 0` / `?.count || 0` — an absent group contributes 0). -/
def getDashboardSummary (uid : Nat) (inRange : Int → Bool) (txns : List Txn) :
    DashboardSummary :=
  let matched := txns.filter (fun t => t.userId == uid && inRange t.date)
  let incomeTxns := matched.filter (fun t => t.type == TxnType.income)
  let expenseTxns := matched.filter (fun t => t.type == TxnType.expense)
  { income := (incomeTxns.map (·.amount)).sum
    expense := (expenseTxns.map (·.amount)).sum
    balance := (incomeTxns.map (·.amount)).sum - (expenseTxns.map (·.amount)).sum
    incomeTxCount := incomeTxns.length
    expenseTxCount := expenseTxns.length }

/-- The `$match` stage of `getCategoryBreakdown` (report controller lines
193-204): user, type, optional division, optional date range. -/
def breakdownFilter (uid : Nat) (ty : TxnType) (division : Option String)
    (startDate endDate : Option Int) (t : Txn) : Bool :=
  t.userId == uid && t.type == ty &&
  (match division with
   | some d => t.division == d
   | none => true) &&
  (match startDate with
   | some sd => sd ≤ t.date
   | none => true) &&
  (match endDate with
   | some ed => t.date ≤ ed
   | none => true)

/-- One `$group` result row: category, summed amount, count. -/
structure CatRow where
  category : String
  total : Int
  count : Nat
deriving DecidableEq, Repr

/-- Fold one transaction into the running `$group`-by-category rows. -/
def addToRows : List CatRow → Txn → List CatRow
  | [], t => [{ category := t.category, total := t.amount, count := 1 }]
  | r :: rs, t =>
      if r.category = t.category then
        { r with total := r.total + t.amount, count := r.count + 1 } :: rs
      else r :: addToRows rs t

/-- The `$group: {_id: category, total: Σamount, count: Σ1}` stage over the
matched transactions. -/
def categoryRows (uid : Nat) (ty : TxnType) (division : Option String)
    (startDate endDate : Option Int) (txns : List Txn) : List CatRow :=
  (txns.filter (breakdownFilter uid ty division startDate endDate)).foldl addToRows []

/-- `breakdown.reduce((sum, item) => sum + item.total, 0)`. -/
def totalAmount (rows : List CatRow) : ℚ :=
  (rows.map (fun r => (r.total : ℚ))).sum

/-- `Number(x).toFixed(2)` on an exact value: round to two decimal places. -/
def round2 (x : ℚ) : ℚ :=
  (round (100 * x) : ℚ) / 100

/-- `percentage: ((item.total / totalAmount) * 100).toFixed(2)` for each row
(report controller lines 229-232). -/
def breakdownPercentages (rows : List CatRow) : List ℚ :=
  rows.map (fun r => round2 ((r.total : ℚ) / totalAmount rows * 100))

/-- Verification-layer normal form of the balance mutations: add `f a.id` to
every account's balance. -/
def shiftBalances (f : Nat → Int) (s : St) : St :=
  St.mk (s.accounts.map (fun a => { a with balance := a.balance + f a.id })) s.txns

/-- An account with its balance blanked out; everything the lifecycle
operations must leave untouched. -/
def eraseBalance (a : Account) : Account :=
  { a with balance := 0 }

instance (s : St) : Decidable (balanceInvariant s) :=
  inferInstanceAs (Decidable (∀ a ∈ s.accounts, a.balance = a.openingBalance + effectSum s.txns a.id))

instance (s : St) : Decidable (WFTxnIds s) :=
  inferInstanceAs (Decidable (List.Nodup (s.txns.map (fun t : Txn => t.id))))

/-! ## Lemmas: the balance mutations as uniform shifts -/

theorem shiftBalances_txns (f : Nat → Int) (s : St) :
    (shiftBalances f s).txns = s.txns := rfl

theorem shiftBalances_congr {f g : Nat → Int} (h : ∀ i, f i = g i) (s : St) :
    shiftBalances f s = shiftBalances g s := by
  have : f = g := funext h
  rw [this]

theorem shiftBalances_zero (s : St) : shiftBalances (fun _ => 0) s = s := by
  unfold shiftBalances
  have : (fun (a : Account) => { a with balance := a.balance + 0 }) = fun a => a := by
    funext a
    simp
  simp [this]

theorem incBalance_eq_shift (accId : Nat) (d : Int) (s : St) :
    incBalance accId d s = shiftBalances (fun i => if accId = i then d else 0) s := by
  unfold incBalance shiftBalances
  have : bump accId d = fun (a : Account) =>
      { a with balance := a.balance + if accId = a.id then d else 0 } := by
    funext a
    by_cases h : accId = a.id <;> simp [bump, h]
  rw [this]

theorem shiftBalances_shiftBalances (f g : Nat → Int) (s : St) :
    shiftBalances f (shiftBalances g s) = shiftBalances (fun i => g i + f i) s := by
  unfold shiftBalances
  simp only [List.map_map]
  have : ((fun a : Account => { a with balance := a.balance + f a.id }) ∘
      (fun a : Account => { a with balance := a.balance + g a.id })) =
      (fun a : Account => { a with balance := a.balance + (g a.id + f a.id) }) := by
    funext a
    simp [Function.comp, add_assoc]
  rw [this]

theorem applyNewEffect_eq_shift (t : Txn) (s : St) :
    applyNewEffect t s = shiftBalances (appliedTxnEffect t) s := by
  rcases ht : t.type with _ | _ | _
  · have h1 : applyNewEffect t s = incBalance t.accountId t.amount s := by
      unfold applyNewEffect
      rw [ht]
    rw [h1, incBalance_eq_shift]
    refine shiftBalances_congr (fun i => ?_) s
    simp [appliedTxnEffect, ht]
  · have h1 : applyNewEffect t s = incBalance t.accountId (-t.amount) s := by
      unfold applyNewEffect
      rw [ht]
    rw [h1, incBalance_eq_shift]
    refine shiftBalances_congr (fun i => ?_) s
    simp [appliedTxnEffect, ht]
  · rcases hto : t.toAccountId with _ | d
    · have h1 : applyNewEffect t s = s := by
        unfold applyNewEffect
        rw [ht, hto]
      have h2 : shiftBalances (appliedTxnEffect t) s = shiftBalances (fun _ => 0) s := by
        refine shiftBalances_congr (fun i => ?_) s
        simp [appliedTxnEffect, ht, hto]
      rw [h1, h2, shiftBalances_zero]
    · have h1 : applyNewEffect t s =
          incBalance d t.amount (incBalance t.accountId (-t.amount) s) := by
        unfold applyNewEffect
        rw [ht, hto]
      rw [h1, incBalance_eq_shift, incBalance_eq_shift, shiftBalances_shiftBalances]
      refine shiftBalances_congr (fun i => ?_) s
      simp [appliedTxnEffect, ht, hto]

theorem reverseEffect_eq_shift (t : Txn) (s : St) :
    reverseEffect t s = shiftBalances (fun i => -txnEffect t i) s := by
  rcases ht : t.type with _ | _ | _
  · have h1 : reverseEffect t s = incBalance t.accountId (-t.amount) s := by
      unfold reverseEffect
      rw [ht]
    rw [h1, incBalance_eq_shift]
    refine shiftBalances_congr (fun i => ?_) s
    by_cases h : t.accountId = i <;> simp [txnEffect, ht, h]
  · have h1 : reverseEffect t s = incBalance t.accountId t.amount s := by
      unfold reverseEffect
      rw [ht]
    rw [h1, incBalance_eq_shift]
    refine shiftBalances_congr (fun i => ?_) s
    by_cases h : t.accountId = i <;> simp [txnEffect, ht, h]
  · rcases hto : t.toAccountId with _ | d
    · have h1 : reverseEffect t s = incBalance t.accountId t.amount s := by
        unfold reverseEffect
        rw [ht, hto]
      rw [h1, incBalance_eq_shift]
      refine shiftBalances_congr (fun i => ?_) s
      by_cases h : t.accountId = i <;> simp [txnEffect, ht, hto, h]
    · have h1 : reverseEffect t s =
          incBalance d (-t.amount) (incBalance t.accountId t.amount s) := by
        unfold reverseEffect
        rw [ht, hto]
      rw [h1, incBalance_eq_shift, incBalance_eq_shift, shiftBalances_shiftBalances]
      refine shiftBalances_congr (fun i => ?_) s
      by_cases h : t.accountId = i <;> by_cases h2 : d = i <;>
        simp [txnEffect, ht, hto, h, h2]

theorem appliedTxnEffect_eq_txnEffect (t : Txn)
    (h : ¬(t.type = TxnType.transfer ∧ t.toAccountId = none)) (i : Nat) :
    appliedTxnEffect t i = txnEffect t i := by
  rcases ht : t.type with _ | _ | _ <;>
    simp only [appliedTxnEffect, txnEffect, ht]
  rcases hto : t.toAccountId with _ | d
  · exact absurd ⟨ht, hto⟩ h
  · rfl

theorem reverseEffect_txns (t : Txn) (s : St) :
    (reverseEffect t s).txns = s.txns := by
  rw [reverseEffect_eq_shift]
  rfl

/-! ## Lemmas: effect sums under append, replace, remove -/

theorem effectSum_append (l l' : List Txn) (i : Nat) :
    effectSum (l ++ l') i = effectSum l i + effectSum l' i := by
  unfold effectSum
  rw [List.map_append, List.sum_append]

theorem effectSum_cons (t : Txn) (l : List Txn) (i : Nat) :
    effectSum (t :: l) i = txnEffect t i + effectSum l i := by
  unfold effectSum
  rw [List.map_cons, List.sum_cons]

theorem replaceTxn_map_id (l : List Txn) (tid : Nat) (t' : Txn) (h : t'.id = tid) :
    (replaceTxn l tid t').map (fun t : Txn => t.id) = l.map (fun t : Txn => t.id) := by
  induction l with
  | nil => rfl
  | cons a as ih =>
      by_cases ha : a.id = tid
      · simp [replaceTxn, ha, h]
      · simp [replaceTxn, ha, ih]

theorem removeTxn_sublist (l : List Txn) (tid : Nat) :
    (removeTxn l tid).Sublist l := by
  induction l with
  | nil => exact List.Sublist.refl []
  | cons a as ih =>
      by_cases ha : a.id = tid
      · simp only [removeTxn, ha, if_true]
        exact (List.Sublist.refl as).cons a
      · simp only [removeTxn, ha, if_false]
        exact ih.cons₂ a

theorem effectSum_replaceTxn (l : List Txn) (tid uid : Nat) (t t' : Txn)
    (hnodup : (l.map (fun x : Txn => x.id)).Nodup)
    (hfind : l.find? (fun x => x.id == tid && x.userId == uid) = some t) (i : Nat) :
    effectSum (replaceTxn l tid t') i = effectSum l i - txnEffect t i + txnEffect t' i := by
  induction l with
  | nil => simp at hfind
  | cons a as ih =>
      rw [List.map_cons, List.nodup_cons] at hnodup
      cases hpred : (a.id == tid && a.userId == uid) with
      | true =>
          simp only [List.find?, hpred] at hfind
          injection hfind with hfind
          subst hfind
          have haid : a.id = tid := by
            simp only [Bool.and_eq_true, beq_iff_eq] at hpred
            exact hpred.1
          simp only [replaceTxn]
          rw [if_pos haid, effectSum_cons, effectSum_cons]
          ring
      | false =>
          simp only [List.find?, hpred] at hfind
          have htmem : t ∈ as := List.mem_of_find?_eq_some hfind
          have htid : t.id = tid := by
            have := List.find?_some hfind
            simp only [Bool.and_eq_true, beq_iff_eq] at this
            exact this.1
          by_cases ha : a.id = tid
          · exact absurd (ha ▸ htid ▸ List.mem_map_of_mem (fun x : Txn => x.id) htmem)
              hnodup.1
          · simp only [replaceTxn, ha, if_false]
            rw [effectSum_cons, effectSum_cons, ih hnodup.2 hfind]
            ring

theorem effectSum_removeTxn (l : List Txn) (tid uid : Nat) (t : Txn)
    (hnodup : (l.map (fun x : Txn => x.id)).Nodup)
    (hfind : l.find? (fun x => x.id == tid && x.userId == uid) = some t) (i : Nat) :
    effectSum (removeTxn l tid) i = effectSum l i - txnEffect t i := by
  induction l with
  | nil => simp at hfind
  | cons a as ih =>
      rw [List.map_cons, List.nodup_cons] at hnodup
      cases hpred : (a.id == tid && a.userId == uid) with
      | true =>
          simp only [List.find?, hpred] at hfind
          injection hfind with hfind
          subst hfind
          have haid : a.id = tid := by
            simp only [Bool.and_eq_true, beq_iff_eq] at hpred
            exact hpred.1
          simp only [removeTxn]
          rw [if_pos haid, effectSum_cons]
          ring
      | false =>
          simp only [List.find?, hpred] at hfind
          have htmem : t ∈ as := List.mem_of_find?_eq_some hfind
          have htid : t.id = tid := by
            have := List.find?_some hfind
            simp only [Bool.and_eq_true, beq_iff_eq] at this
            exact this.1
          by_cases ha : a.id = tid
          · exact absurd (ha ▸ htid ▸ List.mem_map_of_mem (fun x : Txn => x.id) htmem)
              hnodup.1
          · simp only [removeTxn, ha, if_false]
            rw [effectSum_cons, effectSum_cons, ih hnodup.2 hfind]
            ring

/-! ## Lemmas: invariant preservation by each lifecycle operation -/

theorem mergeTxn_id (t : Txn) (u : UpdateBody) : (mergeTxn t u).id = t.id := rfl

theorem findTxnOwned_eq (s : St) (tid uid : Nat) (t : Txn)
    (h : findTxnOwned s tid uid = some t) : t.id = tid ∧ t.userId = uid := by
  unfold findTxnOwned at h
  have h2 := List.find?_some h
  simp only [Bool.and_eq_true, beq_iff_eq] at h2
  exact h2

theorem shiftBalances_mk (f : Nat → Int) (s : St) (X : List Txn) :
    shiftBalances f (St.mk s.accounts X) = St.mk (shiftBalances f s).accounts X := rfl

theorem shiftBalances_mk_shift (f g : Nat → Int) (s : St) (X : List Txn) :
    shiftBalances f (St.mk (shiftBalances g s).accounts X) =
      St.mk (shiftBalances (fun i => g i + f i) s).accounts X := by
  show St.mk (shiftBalances f (shiftBalances g s)).accounts X = _
  rw [shiftBalances_shiftBalances]

theorem balanceInvariant_shift (s : St) (f : Nat → Int) (newTxns : List Txn)
    (hinv : balanceInvariant s)
    (hsum : ∀ i, effectSum newTxns i = effectSum s.txns i + f i) :
    balanceInvariant (St.mk (shiftBalances f s).accounts newTxns) := by
  intro a' ha'
  simp only [shiftBalances, List.mem_map] at ha'
  obtain ⟨a, ha, rfl⟩ := ha'
  show a.balance + f a.id = a.openingBalance + effectSum newTxns a.id
  rw [hsum a.id]
  have h := hinv a ha
  omega

theorem effectSum_singleton (t : Txn) (i : Nat) : effectSum [t] i = txnEffect t i := by
  simp [effectSum]

theorem newTxnOf_not_danglingTransfer (uid newId : Nat) (now : Int) (r : CreateReq)
    (h : r.type = TxnType.transfer → r.toAccountId ≠ none) :
    ¬((newTxnOf uid newId now r).type = TxnType.transfer ∧
      (newTxnOf uid newId now r).toAccountId = none) := by
  rintro ⟨h1, h2⟩
  have ht : r.type = TxnType.transfer := h1
  rw [show (newTxnOf uid newId now r).toAccountId =
      (if r.type = TxnType.transfer then r.toAccountId else none) from rfl, if_pos ht] at h2
  exact h ht h2

theorem applyOp_preserves (s : St) (op : Op)
    (hinv : balanceInvariant s) (hwf : WFTxnIds s) (hgood : goodOp s op = true) :
    balanceInvariant (applyOp s op) ∧ WFTxnIds (applyOp s op) := by
  cases op with
  | createTx uid newId now r =>
      simp only [goodOp, decide_eq_true_eq] at hgood
      cases hfind : findAccountOwned s r.accountId uid with
      | none =>
          simp only [applyOp, createTransaction, hfind]
          exact ⟨hinv, hwf⟩
      | some acc =>
          simp only [applyOp, createTransaction, hfind]
          rw [applyNewEffect_eq_shift, shiftBalances_mk]
          constructor
          · refine balanceInvariant_shift s _ _ hinv (fun i => ?_)
            rw [effectSum_append, effectSum_singleton,
              appliedTxnEffect_eq_txnEffect _ (newTxnOf_not_danglingTransfer uid newId now r hgood.1)]
          · show ((s.txns ++ [newTxnOf uid newId now r]).map (fun t : Txn => t.id)).Nodup
            rw [List.map_append]
            rw [List.nodup_append]
            refine ⟨hwf, List.nodup_singleton _, ?_⟩
            intro x hx hx'
            simp only [List.map_cons, List.map_nil, List.mem_singleton, newTxnOf] at hx'
            subst hx'
            exact hgood.2 hx
  | updateTx uid tid now b =>
      cases hfind : findTxnOwned s tid uid with
      | none =>
          simp only [applyOp, updateTransaction, hfind]
          exact ⟨hinv, hwf⟩
      | some t =>
          simp only [goodOp, hfind, decide_eq_true_eq] at hgood
          cases hed : isEditable t now with
          | false =>
              simp only [applyOp, updateTransaction, hfind, hed, Bool.false_eq_true,
                if_false]
              exact ⟨hinv, hwf⟩
          | true =>
              simp only [applyOp, updateTransaction, hfind, hed, if_true]
              rw [reverseEffect_txns, reverseEffect_eq_shift, applyNewEffect_eq_shift,
                shiftBalances_mk_shift]
              have htid : t.id = tid := (findTxnOwned_eq s tid uid t hfind).1
              have htid' : (mergeTxn t (cleanBody b)).id = tid := by
                rw [mergeTxn_id]
                exact htid
              constructor
              · refine balanceInvariant_shift s _ _ hinv (fun i => ?_)
                have hrepl := effectSum_replaceTxn s.txns tid uid t
                  (mergeTxn t (cleanBody b)) hwf hfind i
                rw [hrepl, appliedTxnEffect_eq_txnEffect _ hgood]
                ring
              · show ((replaceTxn s.txns tid (mergeTxn t (cleanBody b))).map
                  (fun t : Txn => t.id)).Nodup
                rw [replaceTxn_map_id _ _ _ htid']
                exact hwf
  | deleteTx uid tid now =>
      cases hfind : findTxnOwned s tid uid with
      | none =>
          simp only [applyOp, deleteTransaction, hfind]
          exact ⟨hinv, hwf⟩
      | some t =>
          cases hed : isEditable t now with
          | false =>
              simp only [applyOp, deleteTransaction, hfind, hed, Bool.false_eq_true,
                if_false]
              exact ⟨hinv, hwf⟩
          | true =>
              simp only [applyOp, deleteTransaction, hfind, hed, if_true]
              rw [reverseEffect_txns, reverseEffect_eq_shift]
              constructor
              · refine balanceInvariant_shift s _ _ hinv (fun i => ?_)
                have hrem := effectSum_removeTxn s.txns tid uid t hwf hfind i
                rw [hrem]
                ring
              · show ((removeTxn s.txns tid).map (fun t : Txn => t.id)).Nodup
                exact ((removeTxn_sublist s.txns tid).map _).nodup hwf

theorem applyOps_preserves (ops : List Op) : ∀ (s : St),
    balanceInvariant s → WFTxnIds s → okOps s ops = true →
    balanceInvariant (applyOps s ops) ∧ WFTxnIds (applyOps s ops) := by
  induction ops with
  | nil => exact fun s hinv hwf _ => ⟨hinv, hwf⟩
  | cons op ops ih =>
      intro s hinv hwf hok
      simp only [okOps, Bool.and_eq_true] at hok
      have hstep := applyOp_preserves s op hinv hwf hok.1
      exact ih (applyOp s op) hstep.1 hstep.2 hok.2

theorem okOps_take (ops : List Op) : ∀ (n : Nat) (s : St),
    okOps s ops = true → okOps s (ops.take n) = true := by
  induction ops with
  | nil => intro n s _; simp [List.take_nil, okOps]
  | cons op ops ih =>
      intro n s hok
      cases n with
      | zero => rfl
      | succ m =>
          simp only [okOps, Bool.and_eq_true] at hok
          simp only [List.take_succ_cons, okOps, Bool.and_eq_true]
          exact ⟨hok.1, ih m (applyOp s op) hok.2⟩

/-! ## Claim C1 -/

/-- C1 (amended): for every account and every sequence of `createTransaction`,
`updateTransaction`, `deleteTransaction` requests in which every created
transfer carries a `toAccountId` and no update leaves behind a transfer
without one (`goodOp`), after each completed operation every account's
balance equals its opening balance plus the summed effects of the persisted
transactions touching it (income `+amount`, expense `-amount`, transfer
source `-amount`, transfer destination `+amount`).  Without that proviso the
invariant fails: see the counterexample, where a destination-less transfer is
persisted with no balance effect. -/
theorem balance_invariant_after_each_good_operation (s : St) (ops : List Op) (n : Nat)
    (hinv : balanceInvariant s) (hwf : WFTxnIds s) (hok : okOps s ops = true) :
    balanceInvariant (applyOps s (ops.take n)) :=
  (applyOps_preserves (ops.take n) s hinv hwf (okOps_take ops n s hok)).1

/-- C1 witness: a concrete account store and a four-request sequence
(create income, create transfer, retype the income to an expense, delete the
transfer) on which the theorem applies, with every hypothesis evaluated. -/
theorem balance_invariant_after_each_good_operation_witness :
    balanceInvariant (St.mk
      [Account.mk 1 7 "X" "cash" "INR" 0 0, Account.mk 2 7 "Y" "bank" "INR" 10 10] []) ∧
    WFTxnIds (St.mk
      [Account.mk 1 7 "X" "cash" "INR" 0 0, Account.mk 2 7 "Y" "bank" "INR" 10 10] []) ∧
    okOps (St.mk
      [Account.mk 1 7 "X" "cash" "INR" 0 0, Account.mk 2 7 "Y" "bank" "INR" 10 10] [])
      [Op.createTx 7 101 0 (CreateReq.mk 1 TxnType.income 100 "Salary" "personal" "d" none none),
       Op.createTx 7 102 0 (CreateReq.mk 1 TxnType.transfer 30 "" "personal" "d" none (some 2)),
       Op.updateTx 7 101 0 (UpdateBody.mk (some TxnType.expense) (some 40) (some "Food")
         none none none none none none),
       Op.deleteTx 7 102 0] = true ∧
    balanceInvariant (applyOps (St.mk
      [Account.mk 1 7 "X" "cash" "INR" 0 0, Account.mk 2 7 "Y" "bank" "INR" 10 10] [])
      (([Op.createTx 7 101 0 (CreateReq.mk 1 TxnType.income 100 "Salary" "personal" "d" none none),
        Op.createTx 7 102 0 (CreateReq.mk 1 TxnType.transfer 30 "" "personal" "d" none (some 2)),
        Op.updateTx 7 101 0 (UpdateBody.mk (some TxnType.expense) (some 40) (some "Food")
          none none none none none none),
        Op.deleteTx 7 102 0]).take 4)) :=
  ⟨by decide, by decide, by decide,
    balance_invariant_after_each_good_operation _ _ 4 (by decide) (by decide) (by decide)⟩

/-- C1 counterexample: the claim as stated fails on the code.  A
destination-less transfer (`type: 'transfer'` with no `toAccountId`) is a
successful `createTransaction` — the source account is owned — yet it is
persisted with NO balance change (`type === 'transfer' && toAccountId` is
falsy), so afterwards the source balance 0 differs from
`openingBalance + effect = 0 - 100`. -/
theorem balance_invariant_violated_by_destinationless_transfer :
    balanceInvariant (St.mk [Account.mk 1 7 "X" "cash" "INR" 0 0] []) ∧
    (createTransaction 7
        (CreateReq.mk 1 TxnType.transfer 100 "" "personal" "d" none none) 10 0
        (St.mk [Account.mk 1 7 "X" "cash" "INR" 0 0] [])).1 =
      Resp.okTxn (newTxnOf 7 10 0
        (CreateReq.mk 1 TxnType.transfer 100 "" "personal" "d" none none)) ∧
    ¬balanceInvariant (createTransaction 7
        (CreateReq.mk 1 TxnType.transfer 100 "" "personal" "d" none none) 10 0
        (St.mk [Account.mk 1 7 "X" "cash" "INR" 0 0] [])).2 := by
  refine ⟨by decide, by decide, by decide⟩

/-! ## Claim C2 -/

theorem applyNewEffect_txns (t : Txn) (s : St) : (applyNewEffect t s).txns = s.txns := by
  rw [applyNewEffect_eq_shift]
  rfl

theorem find?_shift_balance (f : Nat → Int) (l : List Account) (i : Nat) :
    ((l.map (fun a => { a with balance := a.balance + f a.id })).find?
        (fun a => a.id == i)).map (fun a : Account => a.balance) =
      ((l.find? (fun a => a.id == i)).map (fun a : Account => a.balance)).map
        (fun b => b + f i) := by
  induction l with
  | nil => rfl
  | cons a as ih =>
      cases hid : (a.id == i) with
      | true =>
          have hai : a.id = i := by simpa using hid
          subst hai
          simp [List.find?]
      | false =>
          simp only [List.map_cons, List.find?, hid]
          exact ih

theorem balanceOf_shift (f : Nat → Int) (s : St) (i : Nat) :
    balanceOf (shiftBalances f s) i = (balanceOf s i).map (fun b => b + f i) := by
  show ((s.accounts.map (fun a => { a with balance := a.balance + f a.id })).find?
      (fun a => a.id == i)).map (fun a : Account => a.balance) = _
  rw [find?_shift_balance]
  rfl

theorem balanceOf_mk_shift (f : Nat → Int) (s : St) (X : List Txn) (i : Nat) :
    balanceOf (St.mk (shiftBalances f s).accounts X) i =
      (balanceOf s i).map (fun b => b + f i) :=
  balanceOf_shift f s i

/-- C2 (amended): a successful transfer of amount 100 from owned account `x`
(balance 500) to account `y` (balance 200) yields `x` balance 400 and `y`
balance 300, but persists exactly ONE transaction record — the `transfer_out`
on `x` linked to `y` via `toAccountId`, appended to the collection — and no
`transfer_in` record on the destination (the effective `createTransaction`
never creates the mirror record). -/
theorem transfer_create_balances_and_single_record (s : St) (uid x y newId : Nat)
    (now : Int) (category division description : String) (dateOpt : Option Int)
    (hxy : x ≠ y)
    (hsrc : (findAccountOwned s x uid).isSome = true)
    (hbx : balanceOf s x = some 500) (hby : balanceOf s y = some 200) :
    (createTransaction uid
        (CreateReq.mk x TxnType.transfer 100 category division description dateOpt (some y))
        newId now s).2.txns =
      s.txns ++ [newTxnOf uid newId now
        (CreateReq.mk x TxnType.transfer 100 category division description dateOpt (some y))] ∧
    balanceOf (createTransaction uid
        (CreateReq.mk x TxnType.transfer 100 category division description dateOpt (some y))
        newId now s).2 x = some 400 ∧
    balanceOf (createTransaction uid
        (CreateReq.mk x TxnType.transfer 100 category division description dateOpt (some y))
        newId now s).2 y = some 300 := by
  rw [Option.isSome_iff_exists] at hsrc
  obtain ⟨acc, hacc⟩ := hsrc
  simp only [createTransaction, hacc]
  rw [applyNewEffect_eq_shift, shiftBalances_mk]
  refine ⟨rfl, ?_, ?_⟩
  · rw [balanceOf_mk_shift, hbx]
    have : appliedTxnEffect (newTxnOf uid newId now
        (CreateReq.mk x TxnType.transfer 100 category division description dateOpt (some y)))
        x = -100 := by
      simp [appliedTxnEffect, newTxnOf, Ne.symm hxy]
    rw [this]
    rfl
  · rw [balanceOf_mk_shift, hby]
    have : appliedTxnEffect (newTxnOf uid newId now
        (CreateReq.mk x TxnType.transfer 100 category division description dateOpt (some y)))
        y = 100 := by
      simp [appliedTxnEffect, newTxnOf, hxy]
    rw [this]
    rfl

/-- C2 witness: the theorem applied to the concrete store of the spec's
example (X balance 500, Y balance 200). -/
theorem transfer_create_balances_and_single_record_witness :
    ((1 : Nat) ≠ 2 ∧
      (findAccountOwned (St.mk [Account.mk 1 7 "X" "cash" "INR" 500 500,
        Account.mk 2 7 "Y" "bank" "INR" 200 200] []) 1 7).isSome = true ∧
      balanceOf (St.mk [Account.mk 1 7 "X" "cash" "INR" 500 500,
        Account.mk 2 7 "Y" "bank" "INR" 200 200] []) 1 = some 500 ∧
      balanceOf (St.mk [Account.mk 1 7 "X" "cash" "INR" 500 500,
        Account.mk 2 7 "Y" "bank" "INR" 200 200] []) 2 = some 200) ∧
    ((createTransaction 7
        (CreateReq.mk 1 TxnType.transfer 100 "" "personal" "move" none (some 2)) 10 0
        (St.mk [Account.mk 1 7 "X" "cash" "INR" 500 500,
          Account.mk 2 7 "Y" "bank" "INR" 200 200] [])).2.txns =
      [] ++ [newTxnOf 7 10 0
        (CreateReq.mk 1 TxnType.transfer 100 "" "personal" "move" none (some 2))] ∧
    balanceOf (createTransaction 7
        (CreateReq.mk 1 TxnType.transfer 100 "" "personal" "move" none (some 2)) 10 0
        (St.mk [Account.mk 1 7 "X" "cash" "INR" 500 500,
          Account.mk 2 7 "Y" "bank" "INR" 200 200] [])).2 1 = some 400 ∧
    balanceOf (createTransaction 7
        (CreateReq.mk 1 TxnType.transfer 100 "" "personal" "move" none (some 2)) 10 0
        (St.mk [Account.mk 1 7 "X" "cash" "INR" 500 500,
          Account.mk 2 7 "Y" "bank" "INR" 200 200] [])).2 2 = some 300) :=
  ⟨⟨by decide, by decide, by decide, by decide⟩,
    transfer_create_balances_and_single_record _ 7 1 2 10 0 "" "personal" "move" none
      (by decide) (by decide) (by decide) (by decide)⟩

/-- C2 counterexample: the claim as stated fails — after the transfer exactly
ONE transaction record exists, not two, and no `transfer_in` record is
created on the destination. -/
theorem transfer_create_does_not_persist_two_records :
    balanceOf (createTransaction 7
        (CreateReq.mk 1 TxnType.transfer 100 "" "personal" "move" none (some 2)) 10 0
        (St.mk [Account.mk 1 7 "X" "cash" "INR" 500 500,
          Account.mk 2 7 "Y" "bank" "INR" 200 200] [])).2 1 = some 400 ∧
    balanceOf (createTransaction 7
        (CreateReq.mk 1 TxnType.transfer 100 "" "personal" "move" none (some 2)) 10 0
        (St.mk [Account.mk 1 7 "X" "cash" "INR" 500 500,
          Account.mk 2 7 "Y" "bank" "INR" 200 200] [])).2 2 = some 300 ∧
    (createTransaction 7
        (CreateReq.mk 1 TxnType.transfer 100 "" "personal" "move" none (some 2)) 10 0
        (St.mk [Account.mk 1 7 "X" "cash" "INR" 500 500,
          Account.mk 2 7 "Y" "bank" "INR" 200 200] [])).2.txns.length = 1 ∧
    ((createTransaction 7
        (CreateReq.mk 1 TxnType.transfer 100 "" "personal" "move" none (some 2)) 10 0
        (St.mk [Account.mk 1 7 "X" "cash" "INR" 500 500,
          Account.mk 2 7 "Y" "bank" "INR" 200 200] [])).2.txns.filter
      (fun t => decide (t.transferType = some TransferTy.transfer_in))).length = 0 := by
  refine ⟨by decide, by decide, by decide, by decide⟩

/-! ## Claim C3 -/

/-- C3 (amended): provided the merged, cleaned-up record is not a transfer
without a destination, a successful `updateTransaction` changes every
account's balance by exactly `-(old effect) + (new effect)` — a full
reverse-then-reapply, also when the type changes (the B+100
expense-to-income example instantiates this).  For a resulting
destination-less transfer the apply step performs nothing while the reverse
step is full, so the equation fails (see the counterexample). -/
theorem update_balances_are_reverse_then_reapply (s : St) (uid tid : Nat) (now : Int)
    (b : UpdateBody) (t : Txn) (hfind : findTxnOwned s tid uid = some t)
    (hed : isEditable t now = true)
    (hgood : ¬((mergeTxn t (cleanBody b)).type = TxnType.transfer ∧
      (mergeTxn t (cleanBody b)).toAccountId = none)) (i : Nat) :
    balanceOf (updateTransaction uid tid now b s).2 i =
      (balanceOf s i).map
        (fun bal => bal - txnEffect t i + txnEffect (mergeTxn t (cleanBody b)) i) := by
  simp only [updateTransaction, hfind, hed, if_true]
  rw [reverseEffect_txns, reverseEffect_eq_shift, applyNewEffect_eq_shift,
    shiftBalances_mk_shift, balanceOf_mk_shift]
  rw [appliedTxnEffect_eq_txnEffect _ hgood]
  have : (fun bal : Int =>
      bal + (-txnEffect t i + txnEffect (mergeTxn t (cleanBody b)) i)) =
      (fun bal : Int => bal - txnEffect t i + txnEffect (mergeTxn t (cleanBody b)) i) := by
    funext bal
    ring
  rw [this]

/-- C3 witness: the spec's example — an editable expense of 50 on account X
with balance 107-100=7, updated to an income of 50, lands on balance
7 + 50 + 50 = 107, via the theorem at the concrete store. -/
theorem update_balances_are_reverse_then_reapply_witness :
    (findTxnOwned (St.mk [Account.mk 1 7 "X" "cash" "INR" 7 57]
        [Txn.mk 10 7 1 TxnType.expense 50 "Food" "personal" "d" 5 none none 0]) 10 7 =
      some (Txn.mk 10 7 1 TxnType.expense 50 "Food" "personal" "d" 5 none none 0) ∧
     isEditable (Txn.mk 10 7 1 TxnType.expense 50 "Food" "personal" "d" 5 none none 0) 0 =
      true) ∧
    balanceOf (updateTransaction 7 10 0
        (UpdateBody.mk (some TxnType.income) (some 50) (some "Salary")
          none none none none none none)
        (St.mk [Account.mk 1 7 "X" "cash" "INR" 7 57]
          [Txn.mk 10 7 1 TxnType.expense 50 "Food" "personal" "d" 5 none none 0])).2 1 =
      (balanceOf (St.mk [Account.mk 1 7 "X" "cash" "INR" 7 57]
          [Txn.mk 10 7 1 TxnType.expense 50 "Food" "personal" "d" 5 none none 0]) 1).map
        (fun bal => bal -
          txnEffect (Txn.mk 10 7 1 TxnType.expense 50 "Food" "personal" "d" 5 none none 0) 1 +
          txnEffect (mergeTxn
            (Txn.mk 10 7 1 TxnType.expense 50 "Food" "personal" "d" 5 none none 0)
            (cleanBody (UpdateBody.mk (some TxnType.income) (some 50) (some "Salary")
              none none none none none none))) 1) ∧
    balanceOf (updateTransaction 7 10 0
        (UpdateBody.mk (some TxnType.income) (some 50) (some "Salary")
          none none none none none none)
        (St.mk [Account.mk 1 7 "X" "cash" "INR" 7 57]
          [Txn.mk 10 7 1 TxnType.expense 50 "Food" "personal" "d" 5 none none 0])).2 1 =
      some 107 :=
  ⟨⟨by decide, by decide⟩,
    update_balances_are_reverse_then_reapply _ 7 10 0 _ _ (by decide) (by decide)
      (by decide) 1,
    by decide⟩

/-- C3 counterexample: updating a destination-less transfer in place (payload
restates `type: 'transfer'` with an empty `toAccountId`) leaves a record with
identical type, amount, and accounts, yet moves the source balance from 500
to 600: any "reverse the old full effect, then apply the new full effect"
semantics nets zero when old and new coincide, so the claim as stated is
false on the code. -/
theorem update_not_reverse_then_reapply_on_destinationless_transfer :
    ((mergeTxn (Txn.mk 10 7 1 TxnType.transfer 100 "Transfer" "personal" "d" 5 none
          (some TransferTy.transfer_out) 0)
        (cleanBody (UpdateBody.mk (some TxnType.transfer) none none none (some "x")
          none none (some none) none))).type =
      (Txn.mk 10 7 1 TxnType.transfer 100 "Transfer" "personal" "d" 5 none
        (some TransferTy.transfer_out) 0).type ∧
     (mergeTxn (Txn.mk 10 7 1 TxnType.transfer 100 "Transfer" "personal" "d" 5 none
          (some TransferTy.transfer_out) 0)
        (cleanBody (UpdateBody.mk (some TxnType.transfer) none none none (some "x")
          none none (some none) none))).amount =
      (Txn.mk 10 7 1 TxnType.transfer 100 "Transfer" "personal" "d" 5 none
        (some TransferTy.transfer_out) 0).amount ∧
     (mergeTxn (Txn.mk 10 7 1 TxnType.transfer 100 "Transfer" "personal" "d" 5 none
          (some TransferTy.transfer_out) 0)
        (cleanBody (UpdateBody.mk (some TxnType.transfer) none none none (some "x")
          none none (some none) none))).accountId =
      (Txn.mk 10 7 1 TxnType.transfer 100 "Transfer" "personal" "d" 5 none
        (some TransferTy.transfer_out) 0).accountId ∧
     (mergeTxn (Txn.mk 10 7 1 TxnType.transfer 100 "Transfer" "personal" "d" 5 none
          (some TransferTy.transfer_out) 0)
        (cleanBody (UpdateBody.mk (some TxnType.transfer) none none none (some "x")
          none none (some none) none))).toAccountId =
      (Txn.mk 10 7 1 TxnType.transfer 100 "Transfer" "personal" "d" 5 none
        (some TransferTy.transfer_out) 0).toAccountId) ∧
    balanceOf (St.mk [Account.mk 1 7 "X" "cash" "INR" 500 500]
      [Txn.mk 10 7 1 TxnType.transfer 100 "Transfer" "personal" "d" 5 none
        (some TransferTy.transfer_out) 0]) 1 = some 500 ∧
    (updateTransaction 7 10 0
        (UpdateBody.mk (some TxnType.transfer) none none none (some "x")
          none none (some none) none)
        (St.mk [Account.mk 1 7 "X" "cash" "INR" 500 500]
          [Txn.mk 10 7 1 TxnType.transfer 100 "Transfer" "personal" "d" 5 none
            (some TransferTy.transfer_out) 0])).1 =
      Resp.okTxn (mergeTxn
        (Txn.mk 10 7 1 TxnType.transfer 100 "Transfer" "personal" "d" 5 none
          (some TransferTy.transfer_out) 0)
        (cleanBody (UpdateBody.mk (some TxnType.transfer) none none none (some "x")
          none none (some none) none))) ∧
    balanceOf (updateTransaction 7 10 0
        (UpdateBody.mk (some TxnType.transfer) none none none (some "x")
          none none (some none) none)
        (St.mk [Account.mk 1 7 "X" "cash" "INR" 500 500]
          [Txn.mk 10 7 1 TxnType.transfer 100 "Transfer" "personal" "d" 5 none
            (some TransferTy.transfer_out) 0])).2 1 = some 600 := by
  refine ⟨⟨by decide, by decide, by decide, by decide⟩, by decide, by decide, by decide⟩

/-! ## Claims C4 and C6 -/

/-- C4 (confirmed): for an owned transaction, `updateTransaction` and
`deleteTransaction` fail with Forbidden — leaving the store untouched —
exactly when `now - createdAt` is at least 12 hours, and both succeed when it
is under 12 hours; `isEditable` is the derived comparison
`now - 12h < createdAt`, a function of `createdAt` and the current time, not
a stored field of the record. -/
theorem edit_window_forbidden_iff_twelve_hours (s : St) (uid tid : Nat) (now : Int)
    (b : UpdateBody) (t : Txn) (hfind : findTxnOwned s tid uid = some t) :
    (12 * 60 * 60 * 1000 ≤ now - t.createdAt →
      (updateTransaction uid tid now b s).1 = Resp.err Err.forbidden ∧
      (updateTransaction uid tid now b s).2 = s ∧
      (deleteTransaction uid tid now s).1 = Resp.err Err.forbidden ∧
      (deleteTransaction uid tid now s).2 = s) ∧
    (now - t.createdAt < 12 * 60 * 60 * 1000 →
      (updateTransaction uid tid now b s).1 = Resp.okTxn (mergeTxn t (cleanBody b)) ∧
      (deleteTransaction uid tid now s).1 = Resp.okUnit) := by
  constructor
  · intro h
    have hed : isEditable t now = false := by
      simp only [isEditable, decide_eq_false_iff_not, not_lt]
      omega
    refine ⟨?_, ?_, ?_, ?_⟩ <;>
      simp only [updateTransaction, deleteTransaction, hfind, hed, Bool.false_eq_true,
        if_false]
  · intro h
    have hed : isEditable t now = true := by
      simp only [isEditable, decide_eq_true_eq]
      omega
    refine ⟨?_, ?_⟩ <;>
      simp only [updateTransaction, deleteTransaction, hfind, hed, if_true]

/-- C4 witness: a transaction created at time 0 rejects update and delete
with Forbidden at `now` = 13 hours and accepts both at `now` = 11 hours. -/
theorem edit_window_forbidden_iff_twelve_hours_witness :
    (findTxnOwned (St.mk [Account.mk 1 7 "X" "cash" "INR" 40 0]
        [Txn.mk 10 7 1 TxnType.income 40 "Salary" "personal" "d" 0 none none 0]) 10 7 =
      some (Txn.mk 10 7 1 TxnType.income 40 "Salary" "personal" "d" 0 none none 0) ∧
     12 * 60 * 60 * 1000 ≤ (13 * 60 * 60 * 1000 : Int) -
      (Txn.mk 10 7 1 TxnType.income 40 "Salary" "personal" "d" 0 none none 0).createdAt ∧
     (11 * 60 * 60 * 1000 : Int) -
      (Txn.mk 10 7 1 TxnType.income 40 "Salary" "personal" "d" 0 none none 0).createdAt <
      12 * 60 * 60 * 1000) ∧
    ((updateTransaction 7 10 (13 * 60 * 60 * 1000)
        (UpdateBody.mk none (some 45) none none none none none none none)
        (St.mk [Account.mk 1 7 "X" "cash" "INR" 40 0]
          [Txn.mk 10 7 1 TxnType.income 40 "Salary" "personal" "d" 0 none none 0])).1 =
      Resp.err Err.forbidden ∧
     (updateTransaction 7 10 (13 * 60 * 60 * 1000)
        (UpdateBody.mk none (some 45) none none none none none none none)
        (St.mk [Account.mk 1 7 "X" "cash" "INR" 40 0]
          [Txn.mk 10 7 1 TxnType.income 40 "Salary" "personal" "d" 0 none none 0])).2 =
      St.mk [Account.mk 1 7 "X" "cash" "INR" 40 0]
        [Txn.mk 10 7 1 TxnType.income 40 "Salary" "personal" "d" 0 none none 0] ∧
     (deleteTransaction 7 10 (13 * 60 * 60 * 1000)
        (St.mk [Account.mk 1 7 "X" "cash" "INR" 40 0]
          [Txn.mk 10 7 1 TxnType.income 40 "Salary" "personal" "d" 0 none none 0])).1 =
      Resp.err Err.forbidden ∧
     (deleteTransaction 7 10 (13 * 60 * 60 * 1000)
        (St.mk [Account.mk 1 7 "X" "cash" "INR" 40 0]
          [Txn.mk 10 7 1 TxnType.income 40 "Salary" "personal" "d" 0 none none 0])).2 =
      St.mk [Account.mk 1 7 "X" "cash" "INR" 40 0]
        [Txn.mk 10 7 1 TxnType.income 40 "Salary" "personal" "d" 0 none none 0]) ∧
    ((updateTransaction 7 10 (11 * 60 * 60 * 1000)
        (UpdateBody.mk none (some 45) none none none none none none none)
        (St.mk [Account.mk 1 7 "X" "cash" "INR" 40 0]
          [Txn.mk 10 7 1 TxnType.income 40 "Salary" "personal" "d" 0 none none 0])).1 =
      Resp.okTxn (mergeTxn
        (Txn.mk 10 7 1 TxnType.income 40 "Salary" "personal" "d" 0 none none 0)
        (cleanBody (UpdateBody.mk none (some 45) none none none none none none none))) ∧
     (deleteTransaction 7 10 (11 * 60 * 60 * 1000)
        (St.mk [Account.mk 1 7 "X" "cash" "INR" 40 0]
          [Txn.mk 10 7 1 TxnType.income 40 "Salary" "personal" "d" 0 none none 0])).1 =
      Resp.okUnit) :=
  ⟨⟨by decide, by decide, by decide⟩,
    (edit_window_forbidden_iff_twelve_hours
      (St.mk [Account.mk 1 7 "X" "cash" "INR" 40 0]
        [Txn.mk 10 7 1 TxnType.income 40 "Salary" "personal" "d" 0 none none 0])
      7 10 (13 * 60 * 60 * 1000)
      (UpdateBody.mk none (some 45) none none none none none none none)
      (Txn.mk 10 7 1 TxnType.income 40 "Salary" "personal" "d" 0 none none 0)
      (by decide)).1 (by decide),
    (edit_window_forbidden_iff_twelve_hours
      (St.mk [Account.mk 1 7 "X" "cash" "INR" 40 0]
        [Txn.mk 10 7 1 TxnType.income 40 "Salary" "personal" "d" 0 none none 0])
      7 10 (11 * 60 * 60 * 1000)
      (UpdateBody.mk none (some 45) none none none none none none none)
      (Txn.mk 10 7 1 TxnType.income 40 "Salary" "personal" "d" 0 none none 0)
      (by decide)).2 (by decide)⟩

/-- C6 (confirmed): when no transaction with the given id is owned by the
caller — whether it is absent altogether or belongs to another user, cases
the `findOne({_id, userId})` lookup cannot distinguish — both
`updateTransaction` and `deleteTransaction` return the same NotFound error
and leave the store completely unchanged. -/
theorem missing_or_foreign_txn_not_found (s : St) (uid tid : Nat) (now : Int)
    (b : UpdateBody) (hfind : findTxnOwned s tid uid = none) :
    (updateTransaction uid tid now b s).1 = Resp.err Err.notFound ∧
    (updateTransaction uid tid now b s).2 = s ∧
    (deleteTransaction uid tid now s).1 = Resp.err Err.notFound ∧
    (deleteTransaction uid tid now s).2 = s := by
  refine ⟨?_, ?_, ?_, ?_⟩ <;>
    simp only [updateTransaction, deleteTransaction, hfind]

/-- C6 witness: the theorem applied both to a store where the transaction id
does not exist at all and to one where the record exists but belongs to user
9 while user 7 calls; the responses coincide. -/
theorem missing_or_foreign_txn_not_found_witness :
    (findTxnOwned (St.mk [Account.mk 1 7 "X" "cash" "INR" 0 0] []) 10 7 = none ∧
     findTxnOwned (St.mk [Account.mk 1 7 "X" "cash" "INR" 0 0]
        [Txn.mk 10 9 1 TxnType.income 40 "Salary" "personal" "d" 0 none none 0]) 10 7 =
      none) ∧
    ((updateTransaction 7 10 0
        (UpdateBody.mk none (some 45) none none none none none none none)
        (St.mk [Account.mk 1 7 "X" "cash" "INR" 0 0] [])).1 = Resp.err Err.notFound ∧
     (updateTransaction 7 10 0
        (UpdateBody.mk none (some 45) none none none none none none none)
        (St.mk [Account.mk 1 7 "X" "cash" "INR" 0 0] [])).2 =
      St.mk [Account.mk 1 7 "X" "cash" "INR" 0 0] [] ∧
     (deleteTransaction 7 10 0 (St.mk [Account.mk 1 7 "X" "cash" "INR" 0 0] [])).1 =
      Resp.err Err.notFound ∧
     (deleteTransaction 7 10 0 (St.mk [Account.mk 1 7 "X" "cash" "INR" 0 0] [])).2 =
      St.mk [Account.mk 1 7 "X" "cash" "INR" 0 0] []) ∧
    ((updateTransaction 7 10 0
        (UpdateBody.mk none (some 45) none none none none none none none)
        (St.mk [Account.mk 1 7 "X" "cash" "INR" 0 0]
          [Txn.mk 10 9 1 TxnType.income 40 "Salary" "personal" "d" 0 none none 0])).1 =
      Resp.err Err.notFound ∧
     (updateTransaction 7 10 0
        (UpdateBody.mk none (some 45) none none none none none none none)
        (St.mk [Account.mk 1 7 "X" "cash" "INR" 0 0]
          [Txn.mk 10 9 1 TxnType.income 40 "Salary" "personal" "d" 0 none none 0])).2 =
      St.mk [Account.mk 1 7 "X" "cash" "INR" 0 0]
        [Txn.mk 10 9 1 TxnType.income 40 "Salary" "personal" "d" 0 none none 0] ∧
     (deleteTransaction 7 10 0
        (St.mk [Account.mk 1 7 "X" "cash" "INR" 0 0]
          [Txn.mk 10 9 1 TxnType.income 40 "Salary" "personal" "d" 0 none none 0])).1 =
      Resp.err Err.notFound ∧
     (deleteTransaction 7 10 0
        (St.mk [Account.mk 1 7 "X" "cash" "INR" 0 0]
          [Txn.mk 10 9 1 TxnType.income 40 "Salary" "personal" "d" 0 none none 0])).2 =
      St.mk [Account.mk 1 7 "X" "cash" "INR" 0 0]
        [Txn.mk 10 9 1 TxnType.income 40 "Salary" "personal" "d" 0 none none 0]) :=
  ⟨⟨by decide, by decide⟩,
    missing_or_foreign_txn_not_found _ 7 10 0 _ (by decide),
    missing_or_foreign_txn_not_found _ 7 10 0 _ (by decide)⟩

/-! ## Claim C5 -/

/-- C5 (amended): the destination side of a transfer is resolved by id only,
NOT scoped to the caller's userId.  A successful transfer create appends the
single `transfer_out` record (never a `transfer_in`), leaves every account
other than the source and the named destination untouched, and increments by
`amount` whatever account carries the destination id — including an account
owned by a different user.  Only when NO account at all has that id is the
destination-side effect skipped (the `$inc` is a no-op, captured below by
`Option.map` over `none`). -/
theorem transfer_destination_not_scoped_to_user (s : St) (uid x d newId : Nat)
    (now amount : Int) (category division description : String) (dateOpt : Option Int)
    (hxd : x ≠ d)
    (hsrc : (findAccountOwned s x uid).isSome = true) :
    (createTransaction uid
        (CreateReq.mk x TxnType.transfer amount category division description dateOpt (some d))
        newId now s).2.txns =
      s.txns ++ [newTxnOf uid newId now
        (CreateReq.mk x TxnType.transfer amount category division description dateOpt (some d))] ∧
    balanceOf (createTransaction uid
        (CreateReq.mk x TxnType.transfer amount category division description dateOpt (some d))
        newId now s).2 d = (balanceOf s d).map (fun bal => bal + amount) ∧
    (∀ i, i ≠ x → i ≠ d →
      balanceOf (createTransaction uid
        (CreateReq.mk x TxnType.transfer amount category division description dateOpt (some d))
        newId now s).2 i = balanceOf s i) := by
  rw [Option.isSome_iff_exists] at hsrc
  obtain ⟨acc, hacc⟩ := hsrc
  simp only [createTransaction, hacc]
  rw [applyNewEffect_eq_shift, shiftBalances_mk]
  refine ⟨rfl, ?_, ?_⟩
  · rw [balanceOf_mk_shift]
    have : appliedTxnEffect (newTxnOf uid newId now
        (CreateReq.mk x TxnType.transfer amount category division description dateOpt (some d)))
        d = amount := by
      simp [appliedTxnEffect, newTxnOf, hxd]
    rw [this]
  · intro i hix hid
    rw [balanceOf_mk_shift]
    have : appliedTxnEffect (newTxnOf uid newId now
        (CreateReq.mk x TxnType.transfer amount category division description dateOpt (some d)))
        i = 0 := by
      simp [appliedTxnEffect, newTxnOf, Ne.symm hix, Ne.symm hid]
    rw [this]
    cases balanceOf s i <;> simp

/-- C5 witness: user 7 transfers 100 from their account 1 to id 2, which is
user 9's account; the theorem applies and account 2 (a different user's)
goes from 50 to 150 while the unrelated account 3 is untouched. -/
theorem transfer_destination_not_scoped_to_user_witness :
    ((1 : Nat) ≠ 2 ∧
     (findAccountOwned (St.mk [Account.mk 1 7 "X" "cash" "INR" 500 500,
        Account.mk 2 9 "Z" "cash" "INR" 50 50, Account.mk 3 7 "W" "cash" "INR" 5 5] [])
        1 7).isSome = true) ∧
    ((createTransaction 7
        (CreateReq.mk 1 TxnType.transfer 100 "" "personal" "move" none (some 2)) 10 0
        (St.mk [Account.mk 1 7 "X" "cash" "INR" 500 500,
          Account.mk 2 9 "Z" "cash" "INR" 50 50, Account.mk 3 7 "W" "cash" "INR" 5 5]
          [])).2.txns =
      [] ++ [newTxnOf 7 10 0
        (CreateReq.mk 1 TxnType.transfer 100 "" "personal" "move" none (some 2))] ∧
     balanceOf (createTransaction 7
        (CreateReq.mk 1 TxnType.transfer 100 "" "personal" "move" none (some 2)) 10 0
        (St.mk [Account.mk 1 7 "X" "cash" "INR" 500 500,
          Account.mk 2 9 "Z" "cash" "INR" 50 50, Account.mk 3 7 "W" "cash" "INR" 5 5]
          [])).2 2 =
      (balanceOf (St.mk [Account.mk 1 7 "X" "cash" "INR" 500 500,
          Account.mk 2 9 "Z" "cash" "INR" 50 50, Account.mk 3 7 "W" "cash" "INR" 5 5]
          []) 2).map (fun bal => bal + 100)) ∧
    balanceOf (createTransaction 7
        (CreateReq.mk 1 TxnType.transfer 100 "" "personal" "move" none (some 2)) 10 0
        (St.mk [Account.mk 1 7 "X" "cash" "INR" 500 500,
          Account.mk 2 9 "Z" "cash" "INR" 50 50, Account.mk 3 7 "W" "cash" "INR" 5 5]
          [])).2 3 =
      balanceOf (St.mk [Account.mk 1 7 "X" "cash" "INR" 500 500,
        Account.mk 2 9 "Z" "cash" "INR" 50 50, Account.mk 3 7 "W" "cash" "INR" 5 5] []) 3 :=
  ⟨⟨by decide, by decide⟩,
    ⟨(transfer_destination_not_scoped_to_user _ 7 1 2 10 0 100 "" "personal" "move" none
        (by decide) (by decide)).1,
     (transfer_destination_not_scoped_to_user _ 7 1 2 10 0 100 "" "personal" "move" none
        (by decide) (by decide)).2.1⟩,
    (transfer_destination_not_scoped_to_user _ 7 1 2 10 0 100 "" "personal" "move" none
        (by decide) (by decide)).2.2 3 (by decide) (by decide)⟩

/-- C5 counterexample: the claim as stated is false — when `toAccountId`
names an account of a DIFFERENT user, the destination-side effect is not
skipped: user 9's account 2 goes from balance 0 to 100 on user 7's transfer. -/
theorem transfer_destination_effect_hits_foreign_account :
    (St.mk [Account.mk 1 7 "X" "cash" "INR" 500 500, Account.mk 2 9 "Z" "cash" "INR" 0 0]
        []).accounts.all (fun a => a.id ≠ 2 || a.userId ≠ 7) = true ∧
    balanceOf (St.mk [Account.mk 1 7 "X" "cash" "INR" 500 500,
        Account.mk 2 9 "Z" "cash" "INR" 0 0] []) 2 = some 0 ∧
    (createTransaction 7
        (CreateReq.mk 1 TxnType.transfer 100 "" "personal" "move" none (some 2)) 10 0
        (St.mk [Account.mk 1 7 "X" "cash" "INR" 500 500,
          Account.mk 2 9 "Z" "cash" "INR" 0 0] [])).1 =
      Resp.okTxn (newTxnOf 7 10 0
        (CreateReq.mk 1 TxnType.transfer 100 "" "personal" "move" none (some 2))) ∧
    balanceOf (createTransaction 7
        (CreateReq.mk 1 TxnType.transfer 100 "" "personal" "move" none (some 2)) 10 0
        (St.mk [Account.mk 1 7 "X" "cash" "INR" 500 500,
          Account.mk 2 9 "Z" "cash" "INR" 0 0] [])).2 2 = some 100 := by
  refine ⟨by decide, by decide, by decide, by decide⟩

/-! ## Claim C7 -/

theorem eraseBalance_shift (f : Nat → Int) (s : St) :
    ((shiftBalances f s).accounts).map eraseBalance = s.accounts.map eraseBalance := by
  show (s.accounts.map (fun a => { a with balance := a.balance + f a.id })).map eraseBalance = _
  rw [List.map_map]
  rfl

theorem updateFirstAccount_eraseBalance (l : List Account) (i : Nat)
    (g : Account → Account) (hg : ∀ a, eraseBalance (g a) = eraseBalance a) :
    (updateFirstAccount l i g).map eraseBalance = l.map eraseBalance := by
  induction l with
  | nil => rfl
  | cons a as ih =>
      by_cases ha : a.id = i
      · simp only [updateFirstAccount, ha, if_true, List.map_cons, hg a]
      · simp only [updateFirstAccount, ha, if_false, List.map_cons, ih]

theorem find?_updateFirstAccount_proj {β : Type} (proj : Account → β) (l : List Account)
    (i j : Nat) (g : Account → Account) (hid : ∀ a, (g a).id = a.id)
    (hproj : ∀ a, proj (g a) = proj a) :
    ((updateFirstAccount l i g).find? (fun a => a.id == j)).map proj =
      (l.find? (fun a => a.id == j)).map proj := by
  induction l with
  | nil => rfl
  | cons a as ih =>
      by_cases ha : a.id = i
      · simp only [updateFirstAccount, ha, if_true]
        cases hj : (a.id == j) with
        | true =>
            have hj' : ((g a).id == j) = true := by
              rw [hid a]
              exact hj
            simp only [List.find?, hj, hj']
            simp [hproj a]
        | false =>
            have hj' : ((g a).id == j) = false := by
              rw [hid a]
              exact hj
            simp only [List.find?, hj, hj']
      · simp only [updateFirstAccount, ha, if_false]
        cases hj : (a.id == j) with
        | true => simp only [List.find?, hj]
        | false =>
            simp only [List.find?, hj]
            exact ih

/-- C7 (amended): the transaction lifecycle operations and recalibration
mutate ONLY the `balance` field of accounts — every other field, in
particular `openingBalance`, is untouched (stated by blanking balances with
`eraseBalance`).  `updateAccount`, however, writes `req.body` wholesale:
`balance` and `openingBalance` stay unchanged exactly when the request omits
them; a request supplying them overwrites both (see the counterexample), so
they are not immutable against `updateAccount`. -/
theorem opening_balance_frame :
    (∀ (s : St) (op : Op),
      (applyOp s op).accounts.map eraseBalance = s.accounts.map eraseBalance) ∧
    (∀ (s : St) (uid accId : Nat),
      ((recalibrateAccount uid accId s).2).accounts.map eraseBalance =
        s.accounts.map eraseBalance) ∧
    (∀ (s : St) (uid accId : Nat) (b : AccountUpdateBody),
      b.balance = none → b.openingBalance = none → ∀ i,
        balanceOf ((updateAccount uid accId b s).2) i = balanceOf s i ∧
        openingOf ((updateAccount uid accId b s).2) i = openingOf s i) := by
  refine ⟨?_, ?_, ?_⟩
  · intro s op
    cases op with
    | createTx uid newId now r =>
        cases hfind : findAccountOwned s r.accountId uid with
        | none => simp only [applyOp, createTransaction, hfind]
        | some acc =>
            simp only [applyOp, createTransaction, hfind]
            rw [applyNewEffect_eq_shift]
            exact eraseBalance_shift _ _
    | updateTx uid tid now b =>
        cases hfind : findTxnOwned s tid uid with
        | none => simp only [applyOp, updateTransaction, hfind]
        | some t =>
            cases hed : isEditable t now with
            | false =>
                simp only [applyOp, updateTransaction, hfind, hed, Bool.false_eq_true,
                  if_false]
            | true =>
                simp only [applyOp, updateTransaction, hfind, hed, if_true]
                rw [applyNewEffect_eq_shift]
                have h1 := eraseBalance_shift
                  (appliedTxnEffect (mergeTxn t (cleanBody b)))
                  (St.mk (reverseEffect t s).accounts
                    (replaceTxn (reverseEffect t s).txns tid (mergeTxn t (cleanBody b))))
                rw [h1]
                show (reverseEffect t s).accounts.map eraseBalance = _
                rw [reverseEffect_eq_shift]
                exact eraseBalance_shift _ _
    | deleteTx uid tid now =>
        cases hfind : findTxnOwned s tid uid with
        | none => simp only [applyOp, deleteTransaction, hfind]
        | some t =>
            cases hed : isEditable t now with
            | false =>
                simp only [applyOp, deleteTransaction, hfind, hed, Bool.false_eq_true,
                  if_false]
            | true =>
                simp only [applyOp, deleteTransaction, hfind, hed, if_true]
                show (reverseEffect t s).accounts.map eraseBalance = _
                rw [reverseEffect_eq_shift]
                exact eraseBalance_shift _ _
  · intro s uid accId
    cases hfind : findAccountOwned s accId uid with
    | none => simp only [recalibrateAccount, hfind]
    | some a =>
        simp only [recalibrateAccount, hfind]
        exact updateFirstAccount_eraseBalance _ _ _ (fun x => rfl)
  · intro s uid accId b hb hob i
    cases hfind : findAccountOwned s accId uid with
    | none =>
        refine ⟨?_, ?_⟩ <;> simp only [updateAccount, hfind]
    | some a =>
        simp only [updateAccount, hfind]
        constructor
        · exact find?_updateFirstAccount_proj (fun a : Account => a.balance) s.accounts
            accId i _ (fun x => rfl)
            (fun x => by simp [mergeAccount, hb])
        · exact find?_updateFirstAccount_proj (fun a : Account => a.openingBalance)
            s.accounts accId i _ (fun x => rfl)
            (fun x => by simp [mergeAccount, hob])

/-- C7 witness: one instance of each conjunct — an income create, a
recalibration, and an `updateAccount` renaming the account without touching
the monetary fields. -/
theorem opening_balance_frame_witness :
    ((applyOp (St.mk [Account.mk 1 7 "X" "cash" "INR" 3 5] [])
        (Op.createTx 7 10 0
          (CreateReq.mk 1 TxnType.income 40 "Salary" "personal" "d" none none))).accounts.map
      eraseBalance =
      (St.mk [Account.mk 1 7 "X" "cash" "INR" 3 5] []).accounts.map eraseBalance) ∧
    (((recalibrateAccount 7 1 (St.mk [Account.mk 1 7 "X" "cash" "INR" 3 5]
        [])).2).accounts.map eraseBalance =
      (St.mk [Account.mk 1 7 "X" "cash" "INR" 3 5] []).accounts.map eraseBalance) ∧
    ((AccountUpdateBody.mk (some "renamed") none none none none).balance = none ∧
     (AccountUpdateBody.mk (some "renamed") none none none none).openingBalance = none) ∧
    (balanceOf ((updateAccount 7 1 (AccountUpdateBody.mk (some "renamed") none none none none)
        (St.mk [Account.mk 1 7 "X" "cash" "INR" 3 5] [])).2) 1 =
      balanceOf (St.mk [Account.mk 1 7 "X" "cash" "INR" 3 5] []) 1 ∧
     openingOf ((updateAccount 7 1 (AccountUpdateBody.mk (some "renamed") none none none none)
        (St.mk [Account.mk 1 7 "X" "cash" "INR" 3 5] [])).2) 1 =
      openingOf (St.mk [Account.mk 1 7 "X" "cash" "INR" 3 5] []) 1) :=
  ⟨opening_balance_frame.1 _ _,
   opening_balance_frame.2.1 _ 7 1,
   ⟨by decide, by decide⟩,
   opening_balance_frame.2.2 _ 7 1 _ (by decide) (by decide) 1⟩

/-- C7 counterexample: the claim as stated fails — an `updateAccount` request
that supplies `balance` and `openingBalance` overwrites both (mongoose
`findByIdAndUpdate(id, req.body)` applies every supplied field), so neither is
immutable and `updateAccount` does not leave them unchanged regardless of the
supplied fields. -/
theorem update_account_overwrites_balance_and_opening :
    balanceOf (St.mk [Account.mk 1 7 "X" "cash" "INR" 0 0] []) 1 = some 0 ∧
    openingOf (St.mk [Account.mk 1 7 "X" "cash" "INR" 0 0] []) 1 = some 0 ∧
    balanceOf ((updateAccount 7 1 (AccountUpdateBody.mk none none none (some 5) (some 9))
        (St.mk [Account.mk 1 7 "X" "cash" "INR" 0 0] [])).2) 1 = some 5 ∧
    openingOf ((updateAccount 7 1 (AccountUpdateBody.mk none none none (some 5) (some 9))
        (St.mk [Account.mk 1 7 "X" "cash" "INR" 0 0] [])).2) 1 = some 9 := by
  refine ⟨by decide, by decide, by decide, by decide⟩

/-! ## Claim C8 -/

theorem updateFirstAccount_comp (l : List Account) (i : Nat) (g : Account → Account)
    (hid : ∀ a, (g a).id = a.id) (hgg : ∀ a, g (g a) = g a) :
    updateFirstAccount (updateFirstAccount l i g) i g = updateFirstAccount l i g := by
  induction l with
  | nil => rfl
  | cons a as ih =>
      by_cases ha : a.id = i
      · have ha' : (g a).id = i := by rw [hid a]; exact ha
        simp only [updateFirstAccount, ha, if_true, ha', hgg a]
      · have : ¬(a.id = i) := ha
        simp only [updateFirstAccount, ha, if_false, ih]

theorem find?_updateFirstAccount_found (l : List Account) (i uid : Nat)
    (g : Account → Account) (hid : ∀ a, (g a).id = a.id)
    (huid : ∀ a, (g a).userId = a.userId)
    (hnodup : (l.map (fun a : Account => a.id)).Nodup) (a : Account)
    (hfind : l.find? (fun x => x.id == i && x.userId == uid) = some a) :
    (updateFirstAccount l i g).find? (fun x => x.id == i && x.userId == uid) =
      some (g a) := by
  induction l with
  | nil => simp at hfind
  | cons h hs ih =>
      rw [List.map_cons, List.nodup_cons] at hnodup
      cases hpred : (h.id == i && h.userId == uid) with
      | true =>
          simp only [List.find?, hpred] at hfind
          injection hfind with hfind
          subst hfind
          have hhi : h.id = i := by
            simp only [Bool.and_eq_true, beq_iff_eq] at hpred
            exact hpred.1
          simp only [updateFirstAccount, hhi, if_true]
          have hpred' : ((g h).id == i && (g h).userId == uid) = true := by
            rw [hid h, huid h]
            exact hpred
          simp only [List.find?, hpred']
      | false =>
          simp only [List.find?, hpred] at hfind
          have hamem : a ∈ hs := List.mem_of_find?_eq_some hfind
          have hai : a.id = i := by
            have := List.find?_some hfind
            simp only [Bool.and_eq_true, beq_iff_eq] at this
            exact this.1
          by_cases hhi : h.id = i
          · exact absurd (hhi ▸ hai ▸ List.mem_map_of_mem (fun x : Account => x.id) hamem)
              hnodup.1
          · simp only [updateFirstAccount, hhi, if_false, List.find?, hpred]
            exact ih hnodup.2 hfind

/-- C8 (confirmed, spec-modelled): running `recalibrateAccount` twice in a
row with no intervening transaction change produces the same state and the
same stored balance both times — the second run recomputes
`openingBalance + Σ effects` over the unchanged transaction collection and
unchanged opening balance, writing back the value already stored. -/
theorem recalibrate_idempotent (s : St) (uid accId : Nat)
    (hnodup : (s.accounts.map (fun a : Account => a.id)).Nodup) :
    (recalibrateAccount uid accId ((recalibrateAccount uid accId s).2)).2 =
      (recalibrateAccount uid accId s).2 ∧
    balanceOf (recalibrateAccount uid accId ((recalibrateAccount uid accId s).2)).2 accId =
      balanceOf (recalibrateAccount uid accId s).2 accId := by
  have hmain : (recalibrateAccount uid accId ((recalibrateAccount uid accId s).2)).2 =
      (recalibrateAccount uid accId s).2 := by
    cases hfind : findAccountOwned s accId uid with
    | none =>
        simp only [recalibrateAccount, hfind]
    | some a =>
        have hfind1 : findAccountOwned
            (St.mk (updateFirstAccount s.accounts accId
              (fun x => { x with balance := a.openingBalance + effectSum s.txns accId }))
              s.txns) accId uid =
            some { a with balance := a.openingBalance + effectSum s.txns accId } := by
          exact find?_updateFirstAccount_found s.accounts accId uid
            (fun x => { x with balance := a.openingBalance + effectSum s.txns accId })
            (fun x => rfl) (fun x => rfl) hnodup a hfind
        simp only [recalibrateAccount, hfind, hfind1]
        rw [updateFirstAccount_comp _ _
          (fun x => { x with balance := a.openingBalance + effectSum s.txns accId })
          (fun x => rfl) (fun x => rfl)]
  exact ⟨hmain, by rw [hmain]⟩

/-- C8 witness: a concrete store with two accounts and three transactions,
on which the double recalibration of account 1 is literally the single
recalibration. -/
theorem recalibrate_idempotent_witness :
    ((St.mk [Account.mk 1 7 "X" "cash" "INR" 0 11, Account.mk 2 7 "Y" "bank" "INR" 4 4]
        [Txn.mk 21 7 1 TxnType.income 100 "Salary" "personal" "d" 0 none none 0,
         Txn.mk 22 7 1 TxnType.expense 30 "Food" "personal" "d" 0 none none 0,
         Txn.mk 23 7 1 TxnType.transfer 20 "Transfer" "personal" "d" 0 (some 2)
           (some TransferTy.transfer_out) 0]).accounts.map
      (fun a : Account => a.id)).Nodup ∧
    (recalibrateAccount 7 1 ((recalibrateAccount 7 1
        (St.mk [Account.mk 1 7 "X" "cash" "INR" 0 11, Account.mk 2 7 "Y" "bank" "INR" 4 4]
          [Txn.mk 21 7 1 TxnType.income 100 "Salary" "personal" "d" 0 none none 0,
           Txn.mk 22 7 1 TxnType.expense 30 "Food" "personal" "d" 0 none none 0,
           Txn.mk 23 7 1 TxnType.transfer 20 "Transfer" "personal" "d" 0 (some 2)
             (some TransferTy.transfer_out) 0])).2)).2 =
      (recalibrateAccount 7 1
        (St.mk [Account.mk 1 7 "X" "cash" "INR" 0 11, Account.mk 2 7 "Y" "bank" "INR" 4 4]
          [Txn.mk 21 7 1 TxnType.income 100 "Salary" "personal" "d" 0 none none 0,
           Txn.mk 22 7 1 TxnType.expense 30 "Food" "personal" "d" 0 none none 0,
           Txn.mk 23 7 1 TxnType.transfer 20 "Transfer" "personal" "d" 0 (some 2)
             (some TransferTy.transfer_out) 0])).2 ∧
    balanceOf (recalibrateAccount 7 1 ((recalibrateAccount 7 1
        (St.mk [Account.mk 1 7 "X" "cash" "INR" 0 11, Account.mk 2 7 "Y" "bank" "INR" 4 4]
          [Txn.mk 21 7 1 TxnType.income 100 "Salary" "personal" "d" 0 none none 0,
           Txn.mk 22 7 1 TxnType.expense 30 "Food" "personal" "d" 0 none none 0,
           Txn.mk 23 7 1 TxnType.transfer 20 "Transfer" "personal" "d" 0 (some 2)
             (some TransferTy.transfer_out) 0])).2)).2 1 =
      balanceOf (recalibrateAccount 7 1
        (St.mk [Account.mk 1 7 "X" "cash" "INR" 0 11, Account.mk 2 7 "Y" "bank" "INR" 4 4]
          [Txn.mk 21 7 1 TxnType.income 100 "Salary" "personal" "d" 0 none none 0,
           Txn.mk 22 7 1 TxnType.expense 30 "Food" "personal" "d" 0 none none 0,
           Txn.mk 23 7 1 TxnType.transfer 20 "Transfer" "personal" "d" 0 (some 2)
             (some TransferTy.transfer_out) 0])).2 1 :=
  ⟨by decide,
    (recalibrate_idempotent _ 7 1 (by decide)).1,
    (recalibrate_idempotent _ 7 1 (by decide)).2⟩

/-! ## Claim C9 -/

theorem round2_close (x : ℚ) : |round2 x - x| ≤ 1 / 200 := by
  unfold round2
  have h := abs_sub_round (100 * x)
  have h2 : |(round (100 * x) : ℚ) - 100 * x| ≤ 1 / 2 := by
    rw [abs_sub_comm]
    exact h
  have h3 : (round (100 * x) : ℚ) / 100 - x = ((round (100 * x) : ℚ) - 100 * x) / 100 := by
    ring
  rw [h3, abs_div, abs_of_pos (by norm_num : (0 : ℚ) < 100)]
  linarith

theorem list_sum_le_of_close (l : List ℚ) (p q : ℚ → ℚ) (c : ℚ)
    (h : ∀ x ∈ l, |p x - q x| ≤ c) :
    |(l.map p).sum - (l.map q).sum| ≤ (l.length : ℚ) * c := by
  induction l with
  | nil => simp
  | cons a as ih =>
      simp only [List.map_cons, List.sum_cons, List.length_cons]
      have h1 := h a (List.mem_cons_self a as)
      have h2 := ih (fun x hx => h x (List.mem_cons_of_mem a hx))
      have h3 : |(p a + (as.map p).sum) - (q a + (as.map q).sum)| ≤
          |p a - q a| + |(as.map p).sum - (as.map q).sum| := by
        calc |(p a + (as.map p).sum) - (q a + (as.map q).sum)|
            = |(p a - q a) + ((as.map p).sum - (as.map q).sum)| := by ring_nf
          _ ≤ |p a - q a| + |(as.map p).sum - (as.map q).sum| := abs_add _ _
      have h4 : ((as.length + 1 : Nat) : ℚ) * c = (as.length : ℚ) * c + c := by
        push_cast
        ring
      rw [h4]
      linarith

theorem sum_map_div_mul (l : List ℚ) (T : ℚ) :
    (l.map (fun x => x / T * 100)).sum = l.sum / T * 100 := by
  induction l with
  | nil => simp
  | cons a as ih =>
      simp only [List.map_cons, List.sum_cons, ih]
      ring

theorem percentages_sum_close (l : List ℚ) (hT : l.sum ≠ 0) :
    |(l.map (fun x => round2 (x / l.sum * 100))).sum - 100| ≤ (l.length : ℚ) / 200 := by
  have hexact : (l.map (fun x => x / l.sum * 100)).sum = 100 := by
    rw [sum_map_div_mul, div_self hT, one_mul]
  have hclose := list_sum_le_of_close l (fun x => round2 (x / l.sum * 100))
    (fun x => x / l.sum * 100) (1 / 200) (fun x _ => round2_close _)
  rw [hexact] at hclose
  calc |(l.map (fun x => round2 (x / l.sum * 100))).sum - 100|
      ≤ (l.length : ℚ) * (1 / 200) := hclose
    _ = (l.length : ℚ) / 200 := by ring

/-- C9 (confirmed): for any fixed filter set (type, division, date range),
the percentages `getCategoryBreakdown` attaches — each the category total
over the grand total times 100, rounded to two decimals — sum to 100 up to
rounding: the distance from 100 is at most half a cent (1/200) per returned
category.  (The grand total must be nonzero; with a zero total the
JavaScript division yields no meaningful percentages at all.) -/
theorem category_breakdown_percentages_sum_to_100 (uid : Nat) (ty : TxnType)
    (division : Option String) (startDate endDate : Option Int) (txns : List Txn)
    (hT : totalAmount (categoryRows uid ty division startDate endDate txns) ≠ 0) :
    |(breakdownPercentages (categoryRows uid ty division startDate endDate txns)).sum - 100| ≤
      ((categoryRows uid ty division startDate endDate txns).length : ℚ) / 200 := by
  have hT' : (((categoryRows uid ty division startDate endDate txns).map
      (fun r : CatRow => (r.total : ℚ)))).sum ≠ 0 := hT
  have h := percentages_sum_close
    ((categoryRows uid ty division startDate endDate txns).map
      (fun r : CatRow => (r.total : ℚ))) hT'
  have h1 : breakdownPercentages (categoryRows uid ty division startDate endDate txns) =
      ((categoryRows uid ty division startDate endDate txns).map
        (fun r => (r.total : ℚ))).map
        (fun x => round2 (x /
          ((categoryRows uid ty division startDate endDate txns).map
            (fun r => (r.total : ℚ))).sum * 100)) := by
    unfold breakdownPercentages totalAmount
    rw [List.map_map]
    rfl
  rw [h1]
  have h2 : (((categoryRows uid ty division startDate endDate txns).map
      (fun r => (r.total : ℚ)))).length =
      (categoryRows uid ty division startDate endDate txns).length :=
    List.length_map _ _
  rw [← h2]
  exact h

/-- C9 witness: three expense transactions in categories A, A, B produce
rows with totals 2 and 1; the percentages 66.67 and 33.33 sum to 100.00,
within the bound of the theorem. -/
theorem category_breakdown_percentages_sum_to_100_witness :
    totalAmount (categoryRows 7 TxnType.expense none none none
      [Txn.mk 21 7 1 TxnType.expense 1 "A" "personal" "d" 0 none none 0,
       Txn.mk 22 7 1 TxnType.expense 1 "A" "personal" "d" 0 none none 0,
       Txn.mk 23 7 1 TxnType.expense 1 "B" "personal" "d" 0 none none 0]) ≠ 0 ∧
    |(breakdownPercentages (categoryRows 7 TxnType.expense none none none
      [Txn.mk 21 7 1 TxnType.expense 1 "A" "personal" "d" 0 none none 0,
       Txn.mk 22 7 1 TxnType.expense 1 "A" "personal" "d" 0 none none 0,
       Txn.mk 23 7 1 TxnType.expense 1 "B" "personal" "d" 0 none none 0])).sum - 100| ≤
      ((categoryRows 7 TxnType.expense none none none
        [Txn.mk 21 7 1 TxnType.expense 1 "A" "personal" "d" 0 none none 0,
         Txn.mk 22 7 1 TxnType.expense 1 "A" "personal" "d" 0 none none 0,
         Txn.mk 23 7 1 TxnType.expense 1 "B" "personal" "d" 0 none none 0]).length : ℚ) /
        200 :=
  ⟨by
    rw [show categoryRows 7 TxnType.expense none none none
        [Txn.mk 21 7 1 TxnType.expense 1 "A" "personal" "d" 0 none none 0,
         Txn.mk 22 7 1 TxnType.expense 1 "A" "personal" "d" 0 none none 0,
         Txn.mk 23 7 1 TxnType.expense 1 "B" "personal" "d" 0 none none 0] =
        [CatRow.mk "A" 2 2, CatRow.mk "B" 1 1] from by decide]
    norm_num [totalAmount],
    category_breakdown_percentages_sum_to_100 7 TxnType.expense none none none
      [Txn.mk 21 7 1 TxnType.expense 1 "A" "personal" "d" 0 none none 0,
       Txn.mk 22 7 1 TxnType.expense 1 "A" "personal" "d" 0 none none 0,
       Txn.mk 23 7 1 TxnType.expense 1 "B" "personal" "d" 0 none none 0] (by
      rw [show categoryRows 7 TxnType.expense none none none
          [Txn.mk 21 7 1 TxnType.expense 1 "A" "personal" "d" 0 none none 0,
           Txn.mk 22 7 1 TxnType.expense 1 "A" "personal" "d" 0 none none 0,
           Txn.mk 23 7 1 TxnType.expense 1 "B" "personal" "d" 0 none none 0] =
          [CatRow.mk "A" 2 2, CatRow.mk "B" 1 1] from by decide]
      norm_num [totalAmount])⟩

/-! ## Claim C10 -/

/-- C10 (confirmed): transfers contribute nothing to the dashboard summary.
`getDashboardSummary` reads only the `income` and `expense` groups of the
per-type aggregation (`balance = income - expense`, counts likewise), so
appending any set of transfer records — destination-less ones included — to
the transaction collection leaves the reported summary unchanged, and
removing them is the same equation read right to left. -/
theorem dashboard_summary_ignores_transfers (uid : Nat) (inRange : Int → Bool)
    (txns extra : List Txn) (hextra : ∀ t ∈ extra, t.type = TxnType.transfer) :
    getDashboardSummary uid inRange (txns ++ extra) = getDashboardSummary uid inRange txns := by
  have hnil : ∀ ty : TxnType, ty ≠ TxnType.transfer →
      (extra.filter (fun t => t.userId == uid && inRange t.date)).filter
        (fun t => t.type == ty) = [] := by
    intro ty hty
    rw [List.filter_eq_nil_iff]
    intro t ht
    have ht' : t ∈ extra := List.mem_of_mem_filter ht
    have := hextra t ht'
    simp [this, Ne.symm hty]
  have hinc : ((txns ++ extra).filter (fun t => t.userId == uid && inRange t.date)).filter
      (fun t => t.type == TxnType.income) =
      (txns.filter (fun t => t.userId == uid && inRange t.date)).filter
        (fun t => t.type == TxnType.income) := by
    rw [List.filter_append, List.filter_append,
      hnil TxnType.income (by simp), List.append_nil]
  have hexp : ((txns ++ extra).filter (fun t => t.userId == uid && inRange t.date)).filter
      (fun t => t.type == TxnType.expense) =
      (txns.filter (fun t => t.userId == uid && inRange t.date)).filter
        (fun t => t.type == TxnType.expense) := by
    rw [List.filter_append, List.filter_append,
      hnil TxnType.expense (by simp), List.append_nil]
  simp only [getDashboardSummary, hinc, hexp]

/-- C10 witness: adding a two-sided and a destination-less transfer to an
income-and-expense history leaves the dashboard summary unchanged. -/
theorem dashboard_summary_ignores_transfers_witness :
    (∀ t ∈ [Txn.mk 31 7 1 TxnType.transfer 20 "Transfer" "personal" "d" 0 (some 2)
        (some TransferTy.transfer_out) 0,
      Txn.mk 32 7 1 TxnType.transfer 55 "Transfer" "personal" "d" 0 none
        (some TransferTy.transfer_out) 0], t.type = TxnType.transfer) ∧
    getDashboardSummary 7 (fun _ => true)
      ([Txn.mk 21 7 1 TxnType.income 100 "Salary" "personal" "d" 0 none none 0,
        Txn.mk 22 7 1 TxnType.expense 30 "Food" "office" "d" 0 none none 0] ++
       [Txn.mk 31 7 1 TxnType.transfer 20 "Transfer" "personal" "d" 0 (some 2)
          (some TransferTy.transfer_out) 0,
        Txn.mk 32 7 1 TxnType.transfer 55 "Transfer" "personal" "d" 0 none
          (some TransferTy.transfer_out) 0]) =
      getDashboardSummary 7 (fun _ => true)
        [Txn.mk 21 7 1 TxnType.income 100 "Salary" "personal" "d" 0 none none 0,
         Txn.mk 22 7 1 TxnType.expense 30 "Food" "office" "d" 0 none none 0] :=
  ⟨by decide,
    dashboard_summary_ignores_transfers 7 (fun _ => true)
      [Txn.mk 21 7 1 TxnType.income 100 "Salary" "personal" "d" 0 none none 0,
       Txn.mk 22 7 1 TxnType.expense 30 "Food" "office" "d" 0 none none 0]
      [Txn.mk 31 7 1 TxnType.transfer 20 "Transfer" "personal" "d" 0 (some 2)
         (some TransferTy.transfer_out) 0,
       Txn.mk 32 7 1 TxnType.transfer 55 "Transfer" "personal" "d" 0 none
         (some TransferTy.transfer_out) 0] (by decide)⟩
